import Mathlib

set_option maxRecDepth 8192

/-!
Shallow embedding of the Paystack payment backend in `src/server.js`.

The source file contains two near-identical variants of the server (an
earlier and a later revision, separated in the repository by a document
separator).  Definitions suffixed `V1` embed the first variant
(lines 1–300), definitions suffixed `V2` embed the second variant
(lines 301–653).  JavaScript values flowing out of `JSON.parse` are
modelled by `JsValue`; `undefined` is modelled as `none` at type
`Option JsValue`, while JSON `null` is `some JsValue.null`.
-/

/-- A parsed JSON value, as produced by `JSON.parse`.  Numbers are modelled
by their integer part: the parser accepts fraction and exponent suffixes
(so the parse-success domain matches `JSON.parse` on such bodies) but no
route in the server reads a non-integral numeric field. -/
inductive JsValue where
  | null
  | bool (b : Bool)
  | num (n : Int)
  | str (s : String)
  | arr (elems : List JsValue)
  | obj (fields : List (String × JsValue))

/-- JSON whitespace skipping (space, tab, line feed, carriage return). -/
def skipWs : List Char → List Char
  | [] => []
  | c :: cs => if c = ' ' ∨ c = '\t' ∨ c = '\n' ∨ c = '\r' then skipWs cs else c :: cs

/-- Value of a hexadecimal digit character. -/
def hexVal (c : Char) : Option Nat :=
  if '0' ≤ c ∧ c ≤ '9' then some (c.toNat - 48)
  else if 'a' ≤ c ∧ c ≤ 'f' then some (c.toNat - 87)
  else if 'A' ≤ c ∧ c ≤ 'F' then some (c.toNat - 55)
  else none

/-- Body of a JSON string literal, after the opening quote: returns the
decoded characters and the input remaining after the closing quote.
Control characters below `0x20` must be escaped, as in `JSON.parse`. -/
def parseStrChars : List Char → Option (List Char × List Char)
  | [] => none
  | '"' :: rest => some ([], rest)
  | '\\' :: e :: rest =>
    match e with
    | '"' => (parseStrChars rest).map (fun p => ('"' :: p.1, p.2))
    | '\\' => (parseStrChars rest).map (fun p => ('\\' :: p.1, p.2))
    | '/' => (parseStrChars rest).map (fun p => ('/' :: p.1, p.2))
    | 'b' => (parseStrChars rest).map (fun p => (Char.ofNat 8 :: p.1, p.2))
    | 'f' => (parseStrChars rest).map (fun p => (Char.ofNat 12 :: p.1, p.2))
    | 'n' => (parseStrChars rest).map (fun p => ('\n' :: p.1, p.2))
    | 'r' => (parseStrChars rest).map (fun p => ('\r' :: p.1, p.2))
    | 't' => (parseStrChars rest).map (fun p => ('\t' :: p.1, p.2))
    | 'u' =>
      match rest with
      | h1 :: h2 :: h3 :: h4 :: rest2 =>
        match hexVal h1, hexVal h2, hexVal h3, hexVal h4 with
        | some a, some b, some c, some d =>
          (parseStrChars rest2).map
            (fun p => (Char.ofNat (((a * 16 + b) * 16 + c) * 16 + d) :: p.1, p.2))
        | _, _, _, _ => none
      | _ => none
    | _ => none
  | c :: rest =>
    if c.toNat < 32 then none
    else (parseStrChars rest).map (fun p => (c :: p.1, p.2))

/-- Longest prefix of decimal digits. -/
def digitsTake : List Char → (List Char × List Char)
  | [] => ([], [])
  | c :: cs =>
    if '0' ≤ c ∧ c ≤ '9' then
      let p := digitsTake cs
      (c :: p.1, p.2)
    else ([], c :: cs)

/-- Natural number denoted by a digit string. -/
def natOfDigits (ds : List Char) : Nat :=
  ds.foldl (fun a c => a * 10 + (c.toNat - 48)) 0

/-- Fraction part `.digits`, accepted and discarded (see `JsValue`). -/
def parseFrac : List Char → Option (List Char)
  | '.' :: cs =>
    let p := digitsTake cs
    if p.1 = [] then none else some p.2
  | cs => some cs

/-- Exponent part `[eE][+-]?digits`, accepted and discarded. -/
def parseExp : List Char → Option (List Char)
  | c :: cs =>
    if c = 'e' ∨ c = 'E' then
      let cs2 := match cs with
        | '+' :: r => r
        | '-' :: r => r
        | r => r
      let p := digitsTake cs2
      if p.1 = [] then none else some p.2
    else some (c :: cs)
  | [] => some []

/-- JSON number literal: optional minus, integer part without leading
zeros, optional fraction and exponent.  Yields the integer part. -/
def parseNum (cs : List Char) : Option (Int × List Char) :=
  let p := match cs with
    | '-' :: r => (true, r)
    | r => (false, r)
  match p.2 with
  | '0' :: r =>
    match parseFrac r with
    | none => none
    | some r2 =>
      match parseExp r2 with
      | none => none
      | some r3 => some (0, r3)
  | c :: r =>
    if '1' ≤ c ∧ c ≤ '9' then
      let d := digitsTake (c :: r)
      match parseFrac d.2 with
      | none => none
      | some r2 =>
        match parseExp r2 with
        | none => none
        | some r3 =>
          let n : Int := Int.ofNat (natOfDigits d.1)
          some (if p.1 then -n else n, r3)
    else none
  | [] => none

mutual

/-- One JSON value, fuelled recursion (the fuel passed by `parseJson`
always suffices: every three recursive calls consume input). -/
def parseVal : Nat → List Char → Option (JsValue × List Char)
  | 0, _ => none
  | fuel + 1, cs =>
    match skipWs cs with
    | [] => none
    | '{' :: rest =>
      match skipWs rest with
      | '}' :: rest2 => some (JsValue.obj [], rest2)
      | rest2 => (parseMembers fuel rest2).map (fun p => (JsValue.obj p.1, p.2))
    | '[' :: rest =>
      match skipWs rest with
      | ']' :: rest2 => some (JsValue.arr [], rest2)
      | rest2 => (parseElems fuel rest2).map (fun p => (JsValue.arr p.1, p.2))
    | '"' :: rest => (parseStrChars rest).map (fun p => (JsValue.str (String.mk p.1), p.2))
    | 't' :: 'r' :: 'u' :: 'e' :: rest => some (JsValue.bool true, rest)
    | 'f' :: 'a' :: 'l' :: 's' :: 'e' :: rest => some (JsValue.bool false, rest)
    | 'n' :: 'u' :: 'l' :: 'l' :: rest => some (JsValue.null, rest)
    | c :: rest =>
      if c = '-' ∨ ('0' ≤ c ∧ c ≤ '9') then
        (parseNum (c :: rest)).map (fun p => (JsValue.num p.1, p.2))
      else none

/-- Nonempty member list of a JSON object, up to the closing brace. -/
def parseMembers : Nat → List Char → Option (List (String × JsValue) × List Char)
  | 0, _ => none
  | fuel + 1, cs =>
    match skipWs cs with
    | '"' :: rest =>
      match parseStrChars rest with
      | none => none
      | some (keyChars, rest2) =>
        match skipWs rest2 with
        | ':' :: rest3 =>
          match parseVal fuel rest3 with
          | none => none
          | some (v, rest4) =>
            match skipWs rest4 with
            | ',' :: rest5 =>
              match parseMembers fuel rest5 with
              | none => none
              | some (fs, rest6) => some ((String.mk keyChars, v) :: fs, rest6)
            | '}' :: rest5 => some ([(String.mk keyChars, v)], rest5)
            | _ => none
        | _ => none
    | _ => none

/-- Nonempty element list of a JSON array, up to the closing bracket. -/
def parseElems : Nat → List Char → Option (List JsValue × List Char)
  | 0, _ => none
  | fuel + 1, cs =>
    match parseVal fuel cs with
    | none => none
    | some (v, rest) =>
      match skipWs rest with
      | ',' :: rest2 => (parseElems fuel rest2).map (fun p => (v :: p.1, p.2))
      | ']' :: rest2 => some ([v], rest2)
      | _ => none

end

/-- `JSON.parse`: whole-input parse of a string, `none` on the inputs
where `JSON.parse` throws. -/
def parseJson (s : String) : Option JsValue :=
  match parseVal (4 * s.length + 16) s.data with
  | none => none
  | some (v, rest) => if skipWs rest = [] then some v else none

/-! ### HMAC-SHA512 (`crypto.createHmac("sha512", key).update(body).digest("hex")`)

SHA-512 per FIPS 180-4 and HMAC per FIPS 198-1, over byte lists, with
64-bit words represented as naturals reduced modulo `2 ^ 64`. -/

/-- `2 ^ 64`, the word modulus. -/
def w64 : Nat := 18446744073709551616

/-- Bitwise complement of a 64-bit word. -/
def not64 (x : Nat) : Nat := x ^^^ (w64 - 1)

/-- Right rotation of a 64-bit word. -/
def rotr64 (x n : Nat) : Nat := ((x >>> n) ||| (x <<< (64 - n))) % w64

/-- The eight SHA-512 initial hash values. -/
structure Sha512State where
  a : Nat
  b : Nat
  c : Nat
  d : Nat
  e : Nat
  f : Nat
  g : Nat
  h : Nat

/-- Initial SHA-512 state (FIPS 180-4 §5.3.5). -/
def sha512IV : Sha512State :=
  { a := 0x6A09E667F3BCC908, b := 0xBB67AE8584CAA73B, c := 0x3C6EF372FE94F82B,
    d := 0xA54FF53A5F1D36F1, e := 0x510E527FADE682D1, f := 0x9B05688C2B3E6C1F,
    g := 0x1F83D9ABFB41BD6B, h := 0x5BE0CD19137E2179 }

/-- The 80 SHA-512 round constants (FIPS 180-4 §4.2.3). -/
def sha512K : List Nat :=
  [0x428A2F98D728AE22, 0x7137449123EF65CD, 0xB5C0FBCFEC4D3B2F, 0xE9B5DBA58189DBBC,
   0x3956C25BF348B538, 0x59F111F1B605D019, 0x923F82A4AF194F9B, 0xAB1C5ED5DA6D8118,
   0xD807AA98A3030242, 0x12835B0145706FBE, 0x243185BE4EE4B28C, 0x550C7DC3D5FFB4E2,
   0x72BE5D74F27B896F, 0x80DEB1FE3B1696B1, 0x9BDC06A725C71235, 0xC19BF174CF692694,
   0xE49B69C19EF14AD2, 0xEFBE4786384F25E3, 0x0FC19DC68B8CD5B5, 0x240CA1CC77AC9C65,
   0x2DE92C6F592B0275, 0x4A7484AA6EA6E483, 0x5CB0A9DCBD41FBD4, 0x76F988DA831153B5,
   0x983E5152EE66DFAB, 0xA831C66D2DB43210, 0xB00327C898FB213F, 0xBF597FC7BEEF0EE4,
   0xC6E00BF33DA88FC2, 0xD5A79147930AA725, 0x06CA6351E003826F, 0x142929670A0E6E70,
   0x27B70A8546D22FFC, 0x2E1B21385C26C926, 0x4D2C6DFC5AC42AED, 0x53380D139D95B3DF,
   0x650A73548BAF63DE, 0x766A0ABB3C77B2A8, 0x81C2C92E47EDAEE6, 0x92722C851482353B,
   0xA2BFE8A14CF10364, 0xA81A664BBC423001, 0xC24B8B70D0F89791, 0xC76C51A30654BE30,
   0xD192E819D6EF5218, 0xD69906245565A910, 0xF40E35855771202A, 0x106AA07032BBD1B8,
   0x19A4C116B8D2D0C8, 0x1E376C085141AB53, 0x2748774CDF8EEB99, 0x34B0BCB5E19B48A8,
   0x391C0CB3C5C95A63, 0x4ED8AA4AE3418ACB, 0x5B9CCA4F7763E373, 0x682E6FF3D6B2B8A3,
   0x748F82EE5DEFB2FC, 0x78A5636F43172F60, 0x84C87814A1F0AB72, 0x8CC702081A6439EC,
   0x90BEFFFA23631E28, 0xA4506CEBDE82BDE9, 0xBEF9A3F7B2C67915, 0xC67178F2E372532B,
   0xCA273ECEEA26619C, 0xD186B8C721C0C207, 0xEADA7DD6CDE0EB1E, 0xF57D4F7FEE6ED178,
   0x06F067AA72176FBA, 0x0A637DC5A2C898A6, 0x113F9804BEF90DAE, 0x1B710B35131C471B,
   0x28DB77F523047D84, 0x32CAAB7B40C72493, 0x3C9EBE0A15C9BEBC, 0x431D67C49C100D4C,
   0x4CC5D4BECB3E42B6, 0x597F299CFC657E2A, 0x5FCB6FAB3AD6FAEC, 0x6C44198C4A475817]

/-- One SHA-512 compression round. -/
def sha512Round (st : Sha512State) (kt wt : Nat) : Sha512State :=
  let s1 := rotr64 st.e 14 ^^^ rotr64 st.e 18 ^^^ rotr64 st.e 41
  let ch := (st.e &&& st.f) ^^^ (not64 st.e &&& st.g)
  let t1 := (st.h + s1 + ch + kt + wt) % w64
  let s0 := rotr64 st.a 28 ^^^ rotr64 st.a 34 ^^^ rotr64 st.a 39
  let mj := (st.a &&& st.b) ^^^ (st.a &&& st.c) ^^^ (st.b &&& st.c)
  let t2 := (s0 + mj) % w64
  { a := (t1 + t2) % w64, b := st.a, c := st.b, d := st.c,
    e := (st.d + t1) % w64, f := st.e, g := st.f, h := st.g }

/-- Big-endian 64-bit words from a byte list. -/
def bytesToWords64 : List Nat → List Nat
  | b0 :: b1 :: b2 :: b3 :: b4 :: b5 :: b6 :: b7 :: rest =>
    (((((((b0 * 256 + b1) * 256 + b2) * 256 + b3) * 256 + b4) * 256 + b5) * 256
      + b6) * 256 + b7) :: bytesToWords64 rest
  | _ => []

/-- One step of the SHA-512 message-schedule extension. -/
def sha512ExtendStep (w : List Nat) : List Nat :=
  let i := w.length
  let s0 := rotr64 (w.getD (i - 15) 0) 1 ^^^ rotr64 (w.getD (i - 15) 0) 8
    ^^^ (w.getD (i - 15) 0 >>> 7)
  let s1 := rotr64 (w.getD (i - 2) 0) 19 ^^^ rotr64 (w.getD (i - 2) 0) 61
    ^^^ (w.getD (i - 2) 0 >>> 6)
  w ++ [(w.getD (i - 16) 0 + s0 + w.getD (i - 7) 0 + s1) % w64]

/-- SHA-512 compression of one 128-byte block into the running state. -/
def sha512Compress (st : Sha512State) (block : List Nat) : Sha512State :=
  let ws := Nat.iterate sha512ExtendStep 64 (bytesToWords64 block)
  let fin := (sha512K.zip ws).foldl (fun s p => sha512Round s p.1 p.2) st
  { a := (st.a + fin.a) % w64, b := (st.b + fin.b) % w64, c := (st.c + fin.c) % w64,
    d := (st.d + fin.d) % w64, e := (st.e + fin.e) % w64, f := (st.f + fin.f) % w64,
    g := (st.g + fin.g) % w64, h := (st.h + fin.h) % w64 }

/-- Big-endian serialization of a natural into a fixed number of bytes. -/
def natToBytesBE : Nat → Nat → List Nat
  | _, 0 => []
  | n, k + 1 => natToBytesBE (n / 256) k ++ [n % 256]

/-- SHA-512 padding: `0x80`, zeros to 112 mod 128, 16-byte bit length. -/
def sha512Pad (msg : List Nat) : List Nat :=
  msg ++ [128] ++ List.replicate ((240 - ((msg.length + 1) % 128)) % 128) 0
    ++ natToBytesBE (8 * msg.length) 16

/-- Split a byte list into 128-byte blocks. -/
def chunks128 (l : List Nat) : List (List Nat) :=
  if h : l = [] then [] else l.take 128 :: chunks128 (l.drop 128)
termination_by l.length
decreasing_by
  have hl : 0 < l.length := List.length_pos.mpr h
  simp [List.length_drop]
  omega

/-- SHA-512 digest (64 bytes) of a byte list. -/
def sha512 (msg : List Nat) : List Nat :=
  let fin := (chunks128 (sha512Pad msg)).foldl sha512Compress sha512IV
  (([fin.a, fin.b, fin.c, fin.d, fin.e, fin.f, fin.g, fin.h].map
    (fun x => natToBytesBE x 8))).flatten

/-- HMAC-SHA512 (FIPS 198-1) of a message under a key, both byte lists. -/
def hmacSha512 (key msg : List Nat) : List Nat :=
  let k1 := if 128 < key.length then sha512 key else key
  let k0 := k1 ++ List.replicate (128 - k1.length) 0
  sha512 ((k0.map (fun b => b ^^^ 0x5c)) ++ sha512 ((k0.map (fun b => b ^^^ 0x36)) ++ msg))

/-- UTF-8 encoding of one character. -/
def utf8EncodeChar (c : Char) : List Nat :=
  let n := c.toNat
  if n < 0x80 then [n]
  else if n < 0x800 then [0xc0 ||| (n >>> 6), 0x80 ||| (n &&& 0x3f)]
  else if n < 0x10000 then
    [0xe0 ||| (n >>> 12), 0x80 ||| ((n >>> 6) &&& 0x3f), 0x80 ||| (n &&& 0x3f)]
  else
    [0xf0 ||| (n >>> 18), 0x80 ||| ((n >>> 12) &&& 0x3f),
     0x80 ||| ((n >>> 6) &&& 0x3f), 0x80 ||| (n &&& 0x3f)]

/-- UTF-8 bytes of a string (`Buffer` contents of the raw request body). -/
def utf8Bytes (s : String) : List Nat := (s.data.map utf8EncodeChar).flatten

/-- Lowercase hex digit. -/
def hexDigitChar (n : Nat) : Char :=
  if n < 10 then Char.ofNat (48 + n) else Char.ofNat (87 + n)

/-- Lowercase hex rendering of a byte list (`digest("hex")`). -/
def bytesToHex (l : List Nat) : String :=
  String.mk ((l.map (fun b => [hexDigitChar (b / 16), hexDigitChar (b % 16)])).flatten)

/-- The hex HMAC-SHA512 signature the webhook computes over the raw body:
`crypto.createHmac("sha512", secret).update(body).digest("hex")`. -/
def hmacSha512Hex (secret body : String) : String :=
  bytesToHex (hmacSha512 (utf8Bytes secret) (utf8Bytes body))

/-! ### JavaScript value helpers

`undefined` is `none : Option JsValue`; JSON `null` is `some JsValue.null`. -/

/-- Property read on a JS object.  Later duplicate keys win, as when
`JSON.parse` builds an object. -/
def jsField (fields : List (String × JsValue)) (k : String) : Option JsValue :=
  fields.foldl (fun acc p => if p.1 == k then some p.2 else acc) none

/-- Optional chaining `v?.k`: `undefined` when `v` is nullish, a
non-object, or lacks the key. -/
def jsGetOpt (v : Option JsValue) (k : String) : Option JsValue :=
  match v with
  | some (JsValue.obj fs) => jsField fs k
  | _ => none

/-- JavaScript truthiness of a possibly-undefined value. -/
def truthy : Option JsValue → Bool
  | none => false
  | some JsValue.null => false
  | some (JsValue.bool b) => b
  | some (JsValue.num n) => n != 0
  | some (JsValue.str s) => s != ""
  | some (JsValue.arr _) => true
  | some (JsValue.obj _) => true

/-- JavaScript `a || b`. -/
def jsOr (a b : Option JsValue) : Option JsValue := if truthy a then a else b

/-- JavaScript strict equality `===` on the values compared by the server.
Every comparison in the source has a string or `undefined` on one side, so
the object/array reference-equality cases (which compare non-aliased
values, hence `false` in JS) are modelled as `false`. -/
def jsStrictEq : Option JsValue → Option JsValue → Bool
  | none, none => true
  | some JsValue.null, some JsValue.null => true
  | some (JsValue.bool a), some (JsValue.bool b) => a == b
  | some (JsValue.num a), some (JsValue.num b) => a == b
  | some (JsValue.str a), some (JsValue.str b) => a == b
  | _, _ => false

/-- The string carried by a JS value, when it is a string. -/
def asStr : Option JsValue → Option String
  | some (JsValue.str s) => some s
  | _ => none

/-! ### Data model (spec §3; the Prisma schema is not under `src/`)

Modelled from the spec: `User.email` unique; `Payment.reference` the
unique natural key, `userId`/`amountMinor` nullable; `Subscription`
keyed by the pair (`userId`, `plan`). -/

/-- A User row. -/
structure User where
  id : String
  email : String

/-- A Payment row. -/
structure Payment where
  reference : String
  userId : Option String
  provider : String
  status : String
  amountMinor : Option Int
  currency : String
  rawWebhookEvent : Option JsValue

/-- A Subscription row. -/
structure Subscription where
  userId : String
  plan : String
  status : String
  provider : String
  providerPlanCode : Option String
  lastPaidAt : Nat

/-- The persisted state, rows in insertion order; `nextId` feeds fresh
user ids. -/
structure DB where
  users : List User
  payments : List Payment
  subs : List Subscription
  nextId : Nat

/-- Deployment environment and request-time context.  `secret`,
`planPremium` and `planPro` carry the `|| ""` defaults already applied at
lines 23/27-28 and 325-329; `now` is the processing-time clock
(`Date.now()` / `new Date()`); `dbUp i` tells whether the i-th
persistence call of the request succeeds (`false` = the store throws). -/
structure Ctx where
  secret : String
  planPremium : String
  planPro : String
  now : Nat
  dbUp : Nat → Bool

/-- Request-scoped persistence state: the database plus the number of
persistence calls made so far. -/
abbrev St := DB × Nat

/-- One persistence round-trip: consult the availability oracle, throw on
outage. -/
def gated (ctx : Ctx) (st : St) : Except St St :=
  if ctx.dbUp st.2 then Except.ok (st.1, st.2 + 1) else Except.error (st.1, st.2 + 1)

/-- A nullable `Int` column value from a JS field in a Prisma `create`
(`undefined` means "not provided", hence NULL; a non-number is a
validation error). -/
def jsIntCreateField : Option JsValue → Except Unit (Option Int)
  | none => Except.ok none
  | some JsValue.null => Except.ok none
  | some (JsValue.num n) => Except.ok (some n)
  | _ => Except.error ()

/-- A nullable `Int` column assignment in a Prisma `update`: `undefined`
leaves the column unchanged (`none`), `null` clears it. -/
def jsIntUpdateField : Option JsValue → Except Unit (Option (Option Int))
  | none => Except.ok none
  | some JsValue.null => Except.ok (some none)
  | some (JsValue.num n) => Except.ok (some (some n))
  | _ => Except.error ()

/-- A nullable `String` column value in a Prisma `create`. -/
def jsStrOptCreateField : Option JsValue → Except Unit (Option String)
  | none => Except.ok none
  | some JsValue.null => Except.ok none
  | some (JsValue.str s) => Except.ok (some s)
  | _ => Except.error ()

/-- A nullable `String` column assignment in a Prisma `update`. -/
def jsStrOptUpdateField : Option JsValue → Except Unit (Option (Option String))
  | none => Except.ok none
  | some JsValue.null => Except.ok (some none)
  | some (JsValue.str s) => Except.ok (some (some s))
  | _ => Except.error ()

/-- `prisma.user.findUnique({ where: { email } })`, pure part. -/
def dbFindUser (db : DB) (email : String) : Option User :=
  db.users.find? (fun u => u.email == email)

/-- `prisma.user.create({ data: { email } })`: fresh id, unique-email
constraint.  Validation errors throw before a store round-trip. -/
def prismaCreateUser (ctx : Ctx) (st : St) (email : String) : Except St (User × St) :=
  match gated ctx st with
  | Except.error st2 => Except.error st2
  | Except.ok st2 =>
    if st2.1.users.any (fun u => u.email == email) then Except.error st2
    else
      let u : User := { id := "u" ++ toString st2.1.nextId, email := email }
      Except.ok (u, ({ st2.1 with users := st2.1.users ++ [u], nextId := st2.1.nextId + 1 }, st2.2))

/-- `createOrGetUser` of variant 1 (lines 43-53): every failure is caught
inside the helper and collapses to `null`. -/
def createOrGetUserV1 (ctx : Ctx) (st : St) (emailJs : Option JsValue) : Option User × St :=
  if truthy emailJs then
    match asStr emailJs with
    | none => (none, st)
    | some email =>
      match gated ctx st with
      | Except.error st2 => (none, st2)
      | Except.ok st2 =>
        match dbFindUser st2.1 email with
        | some u => (some u, st2)
        | none =>
          match prismaCreateUser ctx st2 email with
          | Except.error st3 => (none, st3)
          | Except.ok (u, st3) => (some u, st3)
  else (none, st)

/-- `createOrGetUser` of variant 2 (lines 346-351): no catch, failures
propagate to the caller. -/
def createOrGetUserV2 (ctx : Ctx) (st : St) (emailJs : Option JsValue) :
    Except St (Option User × St) :=
  if truthy emailJs then
    match asStr emailJs with
    | none => Except.error st
    | some email =>
      match gated ctx st with
      | Except.error st2 => Except.error st2
      | Except.ok st2 =>
        match dbFindUser st2.1 email with
        | some u => Except.ok (some u, st2)
        | none => (prismaCreateUser ctx st2 email).map (fun p => (some p.1, p.2))
  else Except.ok (none, st)

/-- `user?.id || null` (Payment `userId` in a create). -/
def jsUserIdOrNull (user : Option User) : Option String :=
  match user with
  | some u => if u.id == "" then none else some u.id
  | none => none

/-- `user?.id || ""` (Subscription key in variant 2). -/
def jsUserIdOrEmpty (user : Option User) : String :=
  match user with
  | some u => u.id
  | none => ""

/-- `user?.id` truthiness (guard at line 196). -/
def userIdTruthy : Option User → Bool
  | some u => u.id != ""
  | none => false

/-! ### Payment and Subscription persistence operations -/

/-- The `update` branch of the payment upsert: status `success`, refreshed
amount/currency and audit payload (lines 181 / 509). -/
def paymentUpdateRow (event : JsValue) (updAmt : Option (Option Int)) (cur : String)
    (p : Payment) : Payment :=
  { p with
    status := "success", amountMinor := updAmt.getD p.amountMinor,
    currency := cur, rawWebhookEvent := some event }

/-- `prisma.payment.upsert` keyed by `reference`, pure part: update the
row matching `whereRef` if present, otherwise insert `newRow` subject to
the unique-reference constraint (`none` = constraint violation). -/
def dbPaymentUpsert (db : DB) (whereRef : String) (upd : Payment → Payment)
    (newRow : Payment) : Option DB :=
  if db.payments.any (fun p => p.reference == whereRef) then
    some { db with
      payments := db.payments.map (fun p => if p.reference == whereRef then upd p else p) }
  else if db.payments.any (fun p => p.reference == newRow.reference) then none
  else some { db with payments := db.payments ++ [newRow] }

/-- Payment upsert call of variant 1 (lines 179-191):
`where: { reference: reference || "" }`, create with
`reference || ref_<Date.now()>`, `amountMinor: amount` in both branches. -/
def paymentUpsertV1 (ctx : Ctx) (st : St) (event : JsValue) (reference amount currency : Option JsValue)
    (user : Option User) : Except St St :=
  match asStr (jsOr reference (some (JsValue.str ""))),
      asStr (jsOr reference (some (JsValue.str ("ref_" ++ toString ctx.now)))),
      jsIntUpdateField amount, jsIntCreateField amount, asStr currency with
  | some whereRef, some creRef, Except.ok updAmt, Except.ok creAmt, some cur =>
    match gated ctx st with
    | Except.error st2 => Except.error st2
    | Except.ok st2 =>
      match dbPaymentUpsert st2.1 whereRef (paymentUpdateRow event updAmt cur)
          { reference := creRef, userId := jsUserIdOrNull user, provider := "paystack",
            status := "success", amountMinor := creAmt, currency := cur,
            rawWebhookEvent := some event } with
      | some db2 => Except.ok (db2, st2.2)
      | none => Except.error st2
  | _, _, _, _, _ => Except.error st

/-- Payment upsert call of variant 2 (lines 507-519): as variant 1 except
the update amount is `amount ?? undefined` (a JSON `null` amount is
skipped rather than stored). -/
def paymentUpsertV2 (ctx : Ctx) (st : St) (event : JsValue) (reference amount currency : Option JsValue)
    (user : Option User) : Except St St :=
  match asStr (jsOr reference (some (JsValue.str ""))),
      asStr (jsOr reference (some (JsValue.str ("ref_" ++ toString ctx.now)))),
      jsIntUpdateField (if jsStrictEq amount (some JsValue.null) then none else amount),
      jsIntCreateField amount, asStr currency with
  | some whereRef, some creRef, Except.ok updAmt, Except.ok creAmt, some cur =>
    match gated ctx st with
    | Except.error st2 => Except.error st2
    | Except.ok st2 =>
      match dbPaymentUpsert st2.1 whereRef (paymentUpdateRow event updAmt cur)
          { reference := creRef, userId := jsUserIdOrNull user, provider := "paystack",
            status := "success", amountMinor := creAmt, currency := cur,
            rawWebhookEvent := some event } with
      | some db2 => Except.ok (db2, st2.2)
      | none => Except.error st2
  | _, _, _, _, _ => Except.error st

/-- `prisma.subscription.upsert` keyed by (`userId`, `plan`), pure part.
The where key always equals the created key in the source, so no
constraint violation can arise. -/
def dbSubUpsert (db : DB) (uid plan : String) (upd : Subscription → Subscription)
    (newRow : Subscription) : DB :=
  if db.subs.any (fun s => s.userId == uid && s.plan == plan) then
    { db with
      subs := db.subs.map (fun s => if s.userId == uid && s.plan == plan then upd s else s) }
  else { db with subs := db.subs ++ [newRow] }

/-- Subscription upsert of variant 1 (lines 198-209). -/
def subUpsertV1 (ctx : Ctx) (st : St) (planCode : Option JsValue) (uid planKey : String) :
    Except St St :=
  match jsStrOptUpdateField planCode, jsStrOptCreateField planCode with
  | Except.ok updCode, Except.ok creCode =>
    match gated ctx st with
    | Except.error st2 => Except.error st2
    | Except.ok st2 =>
      Except.ok (dbSubUpsert st2.1 uid planKey
        (fun s => { s with
          status := "active",
          providerPlanCode := updCode.getD s.providerPlanCode, lastPaidAt := ctx.now })
        { userId := uid, plan := planKey, status := "active", provider := "paystack",
          providerPlanCode := creCode, lastPaidAt := ctx.now }, st2.2)
  | _, _ => Except.error st

/-- Subscription upsert of variant 2 (lines 523-534): the created
`providerPlanCode` is `planCode || null`. -/
def subUpsertV2 (ctx : Ctx) (st : St) (planCode : Option JsValue) (uid planKey : String) :
    Except St St :=
  match jsStrOptUpdateField planCode,
      jsStrOptCreateField (jsOr planCode (some JsValue.null)) with
  | Except.ok updCode, Except.ok creCode =>
    match gated ctx st with
    | Except.error st2 => Except.error st2
    | Except.ok st2 =>
      Except.ok (dbSubUpsert st2.1 uid planKey
        (fun s => { s with
          status := "active",
          providerPlanCode := updCode.getD s.providerPlanCode, lastPaidAt := ctx.now })
        { userId := uid, plan := planKey, status := "active", provider := "paystack",
          providerPlanCode := creCode, lastPaidAt := ctx.now }, st2.2)
  | _, _ => Except.error st

/-- `prisma.payment.updateMany({ where: { reference }, data: { status: "failed" } })`
(line 540): update-if-exists, a no-op when no row matches. -/
def paymentsMarkFailed (ctx : Ctx) (st : St) (refJs : Option JsValue) : Except St St :=
  match asStr refJs with
  | none => Except.error st
  | some r =>
    match gated ctx st with
    | Except.error st2 => Except.error st2
    | Except.ok st2 =>
      Except.ok ({ st2.1 with
        payments := st2.1.payments.map
          (fun p => if p.reference == r then { p with status := "failed" } else p) }, st2.2)

/-- `prisma.subscription.updateMany` setting status `canceled` for one
(`userId`, `plan`) pair (lines 549-552). -/
def subsCancel (ctx : Ctx) (st : St) (uid planKey : String) : Except St St :=
  match gated ctx st with
  | Except.error st2 => Except.error st2
  | Except.ok st2 =>
    Except.ok ({ st2.1 with
      subs := st2.1.subs.map
        (fun s => if s.userId == uid && s.plan == planKey then { s with status := "canceled" }
          else s) }, st2.2)

/-! ### Event extraction and plan resolution -/

/-- The fields pulled out of a parsed webhook event (lines 164-170 and
491-497, identical in both variants). -/
structure Extracted where
  evt : Option JsValue
  email : Option JsValue
  reference : Option JsValue
  planCode : Option JsValue
  amount : Option JsValue
  currency : Option JsValue

/-- Field extraction from the parsed body:
`data = event?.data || {}`, `email = data?.customer?.email`,
`planCode = data?.plan || data?.plan_object?.plan_code`,
`currency = data?.currency || "GHS"`. -/
def extractEvent (event : JsValue) : Extracted :=
  let data := jsOr (jsGetOpt (some event) "data") (some (JsValue.obj []))
  { evt := jsGetOpt (some event) "event",
    email := jsGetOpt (jsGetOpt data "customer") "email",
    reference := jsGetOpt data "reference",
    planCode := jsOr (jsGetOpt data "plan") (jsGetOpt (jsGetOpt data "plan_object") "plan_code"),
    amount := jsGetOpt data "amount",
    currency := jsOr (jsGetOpt data "currency") (some (JsValue.str "GHS")) }

/-- Variant 1 `PLAN_CODES` object (lines 26-29): its keys are
`PAYSTACK_PLAN_PREMIUM` and `PAYSTACK_PLAN_PRO`. -/
def planCodesV1 (ctx : Ctx) : List (String × JsValue) :=
  [("PAYSTACK_PLAN_PREMIUM", JsValue.str ctx.planPremium),
   ("PAYSTACK_PLAN_PRO", JsValue.str ctx.planPro)]

/-- Variant 1 plan resolution (lines 174-176): it reads
`PLAN_CODES.premium` and `PLAN_CODES.pro`, keys the variant-1 object does
not have, so both comparisons are against `undefined`. -/
def planKeyV1 (ctx : Ctx) (planCode : Option JsValue) : String :=
  if jsStrictEq planCode (jsField (planCodesV1 ctx) "premium") then "premium"
  else if jsStrictEq planCode (jsField (planCodesV1 ctx) "pro") then "pro"
  else "unknown"

/-- Variant 2 plan resolution (lines 501-504), against the configured
codes (after their `|| ""` defaults). -/
def planKeyV2 (ctx : Ctx) (planCode : Option JsValue) : String :=
  if jsStrictEq planCode (some (JsValue.str ctx.planPremium)) then "premium"
  else if jsStrictEq planCode (some (JsValue.str ctx.planPro)) then "pro"
  else "unknown"

/-- Plan resolution in the `subscription.disable` branch (line 547):
`null` instead of `"unknown"` for an unmapped code. -/
def planKeyDisableV2 (ctx : Ctx) (planCode : Option JsValue) : Option String :=
  if jsStrictEq planCode (some (JsValue.str ctx.planPremium)) then some "premium"
  else if jsStrictEq planCode (some (JsValue.str ctx.planPro)) then some "pro"
  else none

/-! ### Webhook orchestration -/

/-- Continue with the partial state after a caught persistence failure
(the `catch { console.warn(...) }` blocks of variant 1). -/
def recover : Except St St → St
  | Except.ok st => st
  | Except.error st => st

/-- Reconciliation of variant 1 (lines 172-214): only `charge.success`
is handled; the user helper and both upserts swallow their own
failures, so reconciliation never throws. -/
def reconcileV1 (ctx : Ctx) (event : JsValue) (st : St) : St :=
  let ex := extractEvent event
  if jsStrictEq ex.evt (some (JsValue.str "charge.success")) && truthy ex.email then
    let p := createOrGetUserV1 ctx st ex.email
    let planKey := planKeyV1 ctx ex.planCode
    let st2 := recover (paymentUpsertV1 ctx p.2 event ex.reference ex.amount ex.currency p.1)
    if planKey != "unknown" && userIdTruthy p.1 then
      match p.1 with
      | some u => recover (subUpsertV1 ctx st2 ex.planCode u.id planKey)
      | none => st2
    else st2
  else st

/-- The `try` block of variant 1's webhook (lines 162-220): only
`JSON.parse` can throw inside it, so the response is 500 on a parse
failure and 200 otherwise. -/
def webhookBodyV1 (ctx : Ctx) (body : String) (db : DB) : Nat × DB :=
  match parseJson body with
  | none => (500, db)
  | some event => (200, (reconcileV1 ctx event (db, 0)).1)

/-- `POST /api/paystack/webhook` of variant 1 (lines 154-221): verify the
signature over the raw body, else 401 with no further processing. -/
def webhookV1 (ctx : Ctx) (header : Option String) (body : String) (db : DB) : Nat × DB :=
  if header == some (hmacSha512Hex ctx.secret body) then webhookBodyV1 ctx body db
  else (401, db)

/-- The `charge.success` block of variant 2 (lines 499-536): no per-step
catch, persistence failures propagate. -/
def chargeSuccessV2 (ctx : Ctx) (event : JsValue) (ex : Extracted) (st : St) : Except St St :=
  match createOrGetUserV2 ctx st ex.email with
  | Except.error st1 => Except.error st1
  | Except.ok (user, st1) =>
    let planKey := planKeyV2 ctx ex.planCode
    match paymentUpsertV2 ctx st1 event ex.reference ex.amount ex.currency user with
    | Except.error st2 => Except.error st2
    | Except.ok st2 =>
      if planKey != "unknown" then
        subUpsertV2 ctx st2 ex.planCode (jsUserIdOrEmpty user) planKey
      else Except.ok st2

/-- The `charge.failed` / `invoice.payment_failed` block of variant 2
(lines 538-542). -/
def chargeFailedV2 (ctx : Ctx) (ex : Extracted) (st : St) : Except St St :=
  if truthy ex.reference then paymentsMarkFailed ctx st ex.reference else Except.ok st

/-- The `subscription.disable` block of variant 2 (lines 544-555). -/
def subDisableV2 (ctx : Ctx) (ex : Extracted) (st : St) : Except St St :=
  match asStr ex.email with
  | none => Except.error st
  | some email =>
    match gated ctx st with
    | Except.error st2 => Except.error st2
    | Except.ok st2 =>
      match dbFindUser st2.1 email with
      | none => Except.ok st2
      | some u =>
        match planKeyDisableV2 ctx ex.planCode with
        | some pk => subsCancel ctx st2 u.id pk
        | none => Except.ok st2

/-- Reconciliation of variant 2 (lines 489-556): the three event blocks
in source order, all inside one `try`. -/
def reconcileV2 (ctx : Ctx) (event : JsValue) (st : St) : Except St St :=
  let ex := extractEvent event
  match (if jsStrictEq ex.evt (some (JsValue.str "charge.success")) && truthy ex.email then
      chargeSuccessV2 ctx event ex st
    else Except.ok st) with
  | Except.error st1 => Except.error st1
  | Except.ok st1 =>
    match (if jsStrictEq ex.evt (some (JsValue.str "invoice.payment_failed"))
          || jsStrictEq ex.evt (some (JsValue.str "charge.failed")) then
        chargeFailedV2 ctx ex st1
      else Except.ok st1) with
    | Except.error st2 => Except.error st2
    | Except.ok st2 =>
      if jsStrictEq ex.evt (some (JsValue.str "subscription.disable")) && truthy ex.email
          && truthy ex.planCode then
        subDisableV2 ctx ex st2
      else Except.ok st2

/-- The `try` block of variant 2's webhook (lines 489-561): parse and
reconciliation share the one `try`, so a persistence failure mid-way
answers 500 while keeping the already-applied writes. -/
def webhookBodyV2 (ctx : Ctx) (body : String) (db : DB) : Nat × DB :=
  match parseJson body with
  | none => (500, db)
  | some event =>
    match reconcileV2 ctx event (db, 0) with
    | Except.ok st => (200, st.1)
    | Except.error st => (500, st.1)

/-- `POST /api/paystack/webhook` of variant 2 (lines 482-562): verify the
signature over the raw body, else 401 with no further processing. -/
def webhookV2 (ctx : Ctx) (header : Option String) (body : String) (db : DB) : Nat × DB :=
  if header == some (hmacSha512Hex ctx.secret body) then webhookBodyV2 ctx body db
  else (401, db)

/-! ### Subscription status endpoint -/

/-- The distinct responses of `GET /api/subscription/status/:email`:
400 `{error}`, 200 `{status:"free"}`, 200 `{status:"none"}`,
200 `{status:"active", plan, since}`, and variant 2's 500 error. -/
inductive StatusResp where
  | badRequest
  | free
  | noneStatus
  | active (plan : String) (since : Nat)
  | failure

/-- The subscription rows the `include: { subscriptions: true }` relation
loads for a user, in insertion order. -/
def subsOfUser (db : DB) (uid : String) : List Subscription :=
  db.subs.filter (fun s => s.userId == uid)

/-- `GET /api/subscription/status/:email` of variant 1 (lines 224-243):
missing user, no active row, and persistence failure all answer
`{status:"free"}`. -/
def statusV1 (ctx : Ctx) (db : DB) (email : String) : StatusResp :=
  if email == "" then StatusResp.badRequest
  else
    match gated ctx (db, 0) with
    | Except.error _ => StatusResp.free
    | Except.ok st2 =>
      match dbFindUser st2.1 email with
      | none => StatusResp.free
      | some u =>
        match (subsOfUser st2.1 u.id).find? (fun s => s.status == "active") with
        | some s => StatusResp.active s.plan s.lastPaidAt
        | none => StatusResp.free

/-- `GET /api/subscription/status/:email` of variant 2 (lines 565-586):
a missing user answers `{status:"none"}` and a persistence failure
answers 500. -/
def statusV2 (ctx : Ctx) (db : DB) (email : String) : StatusResp :=
  if email == "" then StatusResp.badRequest
  else
    match gated ctx (db, 0) with
    | Except.error _ => StatusResp.failure
    | Except.ok st2 =>
      match dbFindUser st2.1 email with
      | none => StatusResp.noneStatus
      | some u =>
        match (subsOfUser st2.1 u.id).find? (fun s => s.status == "active") with
        | some s => StatusResp.active s.plan s.lastPaidAt
        | none => StatusResp.free

/-! ### Concrete inputs for the theorems -/

/-- A Paystack webhook event value of the shape in spec §6, with optional
fields omitted when absent. -/
def mkWebhookEvent (evt : String) (email ref plan : Option String) (amount : Option Int) :
    JsValue :=
  JsValue.obj [("event", JsValue.str evt),
    ("data", JsValue.obj
      ((match email with
        | some e => [("customer", JsValue.obj [("email", JsValue.str e)])]
        | none => []) ++
       (match ref with
        | some r => [("reference", JsValue.str r)]
        | none => []) ++
       (match plan with
        | some p => [("plan", JsValue.str p)]
        | none => []) ++
       (match amount with
        | some a => [("amount", JsValue.num a)]
        | none => []) ++
       [("currency", JsValue.str "GHS")]))]

/-- An always-available persistence layer. -/
def okOracle : Nat → Bool := fun _ => true

/-- An unreachable persistence layer. -/
def downOracle : Nat → Bool := fun _ => false

/-- The empty database. -/
def emptyDB : DB := { users := [], payments := [], subs := [], nextId := 0 }

/-- Payment rows carrying a given reference. -/
def paymentsWithRef (db : DB) (r : String) : List Payment :=
  db.payments.filter (fun p => p.reference == r)

/-- Subscription rows carrying a given (userId, plan) key. -/
def subsWithKey (db : DB) (uid plan : String) : List Subscription :=
  db.subs.filter (fun s => s.userId == uid && s.plan == plan)

/-- A demonstration deployment configuration with both plan codes set. -/
def demoCtx : Ctx :=
  { secret := "sk", planPremium := "PLN_premium", planPro := "PLN_pro",
    now := 5, dbUp := okOracle }

/-- The webhook body of the spec §8 success scenario. -/
def demoBody : String :=
  "\x7b\"event\":\"charge.success\",\"data\":\x7b\"customer\":\x7b\"email\":\"a@x.com\"\x7d,\"reference\":\"ref1\",\"plan\":\"PLN_premium\",\"amount\":4900,\"currency\":\"GHS\"\x7d\x7d"

/-! ### Fixtures for the theorems -/

def freshUser (db : DB) (e : String) : User := { id := "u" ++ toString db.nextId, email := e }

def newPaymentRow (event : JsValue) (r : String) (a : Int) (user : Option User) : Payment :=
  { reference := r, userId := jsUserIdOrNull user, provider := "paystack",
    status := "success", amountMinor := some a, currency := "GHS",
    rawWebhookEvent := some event }

def newSubRow (uid pk : String) (code : Option String) (now : Nat) : Subscription :=
  { userId := uid, plan := pk, status := "active", provider := "paystack",
    providerPlanCode := code, lastPaidAt := now }

def noSecretCtx : Ctx :=
  { secret := "", planPremium := "PLN_premium", planPro := "PLN_pro",
    now := 0, dbUp := okOracle }

def downCtx : Ctx := { demoCtx with dbUp := downOracle }

def demoUser : User := { id := "u0", email := "a@x.com" }

def canceledSub : Subscription :=
  { userId := "u0", plan := "premium", status := "canceled",
    provider := "paystack", providerPlanCode := some "PLN_premium", lastPaidAt := 3 }

def canceledDB : DB :=
  { users := [demoUser], payments := [], subs := [canceledSub], nextId := 1 }

def paidRow : Payment :=
  { reference := "r1", userId := some "u0", provider := "paystack",
    status := "success", amountMinor := some 4900, currency := "GHS",
    rawWebhookEvent := none }

def paidDB : DB :=
  { users := [demoUser], payments := [paidRow], subs := [], nextId := 1 }

def activeSubDB : DB :=
  { users := [demoUser], payments := [],
    subs := [newSubRow "u0" "premium" (some "PLN_premium") 3], nextId := 1 }

def userDB : DB := { users := [demoUser], payments := [], subs := [], nextId := 1 }

/-! ### Dispatch lemmas -/

theorem webhookV1_valid_sig (ctx : Ctx) (body : String) (db : DB) :
    webhookV1 ctx (some (hmacSha512Hex ctx.secret body)) body db = webhookBodyV1 ctx body db := by
  simp [webhookV1]

theorem webhookV2_valid_sig (ctx : Ctx) (body : String) (db : DB) :
    webhookV2 ctx (some (hmacSha512Hex ctx.secret body)) body db = webhookBodyV2 ctx body db := by
  simp [webhookV2]

theorem webhookV1_bad_sig (ctx : Ctx) (header : Option String) (body : String) (db : DB)
    (h : header ≠ some (hmacSha512Hex ctx.secret body)) :
    webhookV1 ctx header body db = (401, db) := by
  simp [webhookV1, h]

theorem webhookV2_bad_sig (ctx : Ctx) (header : Option String) (body : String) (db : DB)
    (h : header ≠ some (hmacSha512Hex ctx.secret body)) :
    webhookV2 ctx header body db = (401, db) := by
  simp [webhookV2, h]

/-! ### Helper lemmas -/

theorem filter_map_ite {α : Type} (q : α → Bool) (upd : α → α)
    (hq : ∀ x, q (upd x) = q x) (l : List α) :
    (l.map (fun x => if q x then upd x else x)).filter q = (l.filter q).map upd := by
  induction l with
  | nil => rfl
  | cons x l ih =>
    by_cases h : q x = true
    · simp only [List.map_cons, List.filter_cons, h, if_pos, hq, ih]
    · have hf : q x = false := by simpa using h
      simp only [List.map_cons, List.filter_cons, hf, if_neg, ih]
      simp [hf]

theorem any_false_of_filter_nil {α : Type} (q : α → Bool) (l : List α)
    (h : l.filter q = []) : l.any q = false := by
  rw [List.any_eq_false]
  intro x hx
  simpa using List.filter_eq_nil_iff.mp h x hx

theorem filter_ne_nil_of_any {α : Type} (q : α → Bool) (l : List α) (h : l.any q = true) :
    l.filter q ≠ [] := by
  obtain ⟨x, hx, hq⟩ := List.any_eq_true.mp h
  intro hnil
  have := List.filter_eq_nil_iff.mp hnil x hx
  simp [hq] at this

theorem dbFindUser_eq_of_users (db1 db2 : DB) (e : String) (h : db1.users = db2.users) :
    dbFindUser db1 e = dbFindUser db2 e := by
  simp [dbFindUser, h]

theorem ref_ne_empty (x : String) : ("ref_" ++ x : String) ≠ "" := by
  intro h
  have hlen : ("ref_" ++ x).length = 0 := by rw [h]; rfl
  rw [String.length_append] at hlen
  have h4 : ("ref_" : String).length = 4 := rfl
  omega

theorem any_ref_append_false (l : List Payment) (row : Payment) (r : String)
    (hl : (l.any fun q => q.reference == r) = false) (hrow : row.reference ≠ r) :
    ((l ++ [row]).any fun q => q.reference == r) = false := by
  simp [List.any_append, hl, beq_eq_false_iff_ne.mpr hrow]

theorem createOrGetUserV2_found (ctx : Ctx) (st : St) (e : String) (u : User)
    (hup : ctx.dbUp st.2 = true) (he : e ≠ "") (hf : dbFindUser st.1 e = some u) :
    createOrGetUserV2 ctx st (some (JsValue.str e)) = Except.ok (some u, (st.1, st.2 + 1)) := by
  have hb : (e != "") = true := bne_iff_ne.mpr he
  simp [createOrGetUserV2, truthy, asStr, gated, hb, hup, hf]

theorem createOrGetUserV2_fresh (ctx : Ctx) (st : St) (e : String)
    (hup : ctx.dbUp st.2 = true) (hup2 : ctx.dbUp (st.2 + 1) = true)
    (he : e ≠ "") (hf : dbFindUser st.1 e = none) :
    createOrGetUserV2 ctx st (some (JsValue.str e)) =
      Except.ok (some (freshUser st.1 e),
        ({ st.1 with
           users := st.1.users ++ [freshUser st.1 e], nextId := st.1.nextId + 1 },
         st.2 + 2)) := by
  have hb : (e != "") = true := bne_iff_ne.mpr he
  have hany : st.1.users.any (fun u => u.email == e) = false := by
    rw [List.any_eq_false]
    intro u hu
    simpa using List.find?_eq_none.mp hf u hu
  simp [createOrGetUserV2, prismaCreateUser, truthy, asStr, gated, freshUser, Except.map,
    hb, hup, hup2, hf, hany]

theorem createOrGetUserV2_exists (ctx : Ctx) (st : St) (e : String)
    (hup : ∀ i, ctx.dbUp i = true) (he : e ≠ "") :
    ∃ u db2 k, createOrGetUserV2 ctx st (some (JsValue.str e)) = Except.ok (some u, (db2, k)) ∧
      db2.payments = st.1.payments ∧ db2.subs = st.1.subs := by
  cases hf : dbFindUser st.1 e with
  | some u =>
    exact ⟨u, st.1, st.2 + 1, createOrGetUserV2_found ctx st e u (hup st.2) he hf, rfl, rfl⟩
  | none =>
    exact ⟨freshUser st.1 e, _, st.2 + 2,
      createOrGetUserV2_fresh ctx st e (hup st.2) (hup (st.2 + 1)) he hf, rfl, rfl⟩

theorem createOrGetUserV1_found (ctx : Ctx) (st : St) (e : String) (u : User)
    (hup : ctx.dbUp st.2 = true) (he : e ≠ "") (hf : dbFindUser st.1 e = some u) :
    createOrGetUserV1 ctx st (some (JsValue.str e)) = (some u, (st.1, st.2 + 1)) := by
  have hb : (e != "") = true := bne_iff_ne.mpr he
  simp [createOrGetUserV1, truthy, asStr, gated, hb, hup, hf]

theorem createOrGetUserV1_fresh (ctx : Ctx) (st : St) (e : String)
    (hup : ctx.dbUp st.2 = true) (hup2 : ctx.dbUp (st.2 + 1) = true)
    (he : e ≠ "") (hf : dbFindUser st.1 e = none) :
    createOrGetUserV1 ctx st (some (JsValue.str e)) =
      (some (freshUser st.1 e),
        ({ st.1 with
           users := st.1.users ++ [freshUser st.1 e], nextId := st.1.nextId + 1 },
         st.2 + 2)) := by
  have hb : (e != "") = true := bne_iff_ne.mpr he
  have hany : st.1.users.any (fun u => u.email == e) = false := by
    rw [List.any_eq_false]
    intro u hu
    simpa using List.find?_eq_none.mp hf u hu
  simp [createOrGetUserV1, prismaCreateUser, truthy, asStr, gated, freshUser,
    hb, hup, hup2, hf, hany]

theorem createOrGetUserV1_exists (ctx : Ctx) (st : St) (e : String)
    (hup : ∀ i, ctx.dbUp i = true) (he : e ≠ "") :
    ∃ u db2 k, createOrGetUserV1 ctx st (some (JsValue.str e)) = (some u, (db2, k)) ∧
      db2.payments = st.1.payments ∧ db2.subs = st.1.subs := by
  cases hf : dbFindUser st.1 e with
  | some u =>
    exact ⟨u, st.1, st.2 + 1, createOrGetUserV1_found ctx st e u (hup st.2) he hf, rfl, rfl⟩
  | none =>
    exact ⟨freshUser st.1 e, _, st.2 + 2,
      createOrGetUserV1_fresh ctx st e (hup st.2) (hup (st.2 + 1)) he hf, rfl, rfl⟩

theorem extract_cs_ref (evtName e r p : String) (a : Int) :
    extractEvent (mkWebhookEvent evtName (some e) (some r) (some p) (some a)) =
      { evt := some (JsValue.str evtName), email := some (JsValue.str e),
        reference := some (JsValue.str r), planCode := jsOr (some (JsValue.str p)) none,
        amount := some (JsValue.num a), currency := some (JsValue.str "GHS") } := rfl

theorem extract_cs_noref (evtName e : String) (a : Int) :
    extractEvent (mkWebhookEvent evtName (some e) none none (some a)) =
      { evt := some (JsValue.str evtName), email := some (JsValue.str e),
        reference := none, planCode := none,
        amount := some (JsValue.num a), currency := some (JsValue.str "GHS") } := rfl

theorem extract_disable (evtName e p : String) :
    extractEvent (mkWebhookEvent evtName (some e) none (some p) none) =
      { evt := some (JsValue.str evtName), email := some (JsValue.str e),
        reference := none, planCode := jsOr (some (JsValue.str p)) none,
        amount := none, currency := some (JsValue.str "GHS") } := rfl

theorem paymentUpsertV2_update (ctx : Ctx) (st : St) (event : JsValue) (r : String) (a : Int)
    (user : Option User) (hup : ctx.dbUp st.2 = true) (hr : r ≠ "")
    (hany : (st.1.payments.any fun p => p.reference == r) = true) :
    paymentUpsertV2 ctx st event (some (JsValue.str r)) (some (JsValue.num a))
        (some (JsValue.str "GHS")) user =
      Except.ok ({ st.1 with
        payments := st.1.payments.map
          (fun p => if p.reference == r then paymentUpdateRow event (some (some a)) "GHS" p
            else p) },
        st.2 + 1) := by
  have hb : (r != "") = true := bne_iff_ne.mpr hr
  simp [paymentUpsertV2, dbPaymentUpsert, jsOr, truthy, asStr, jsIntUpdateField,
    jsIntCreateField, jsStrictEq, gated, hb, hup, hany]

theorem paymentUpsertV2_insert (ctx : Ctx) (st : St) (event : JsValue) (r : String) (a : Int)
    (user : Option User) (hup : ctx.dbUp st.2 = true) (hr : r ≠ "")
    (hany : (st.1.payments.any fun p => p.reference == r) = false) :
    paymentUpsertV2 ctx st event (some (JsValue.str r)) (some (JsValue.num a))
        (some (JsValue.str "GHS")) user =
      Except.ok ({ st.1 with payments := st.1.payments ++ [newPaymentRow event r a user] },
        st.2 + 1) := by
  have hb : (r != "") = true := bne_iff_ne.mpr hr
  simp [paymentUpsertV2, dbPaymentUpsert, newPaymentRow, jsOr, truthy, asStr, jsIntUpdateField,
    jsIntCreateField, jsStrictEq, gated, hb, hup, hany]

theorem paymentUpsertV2_noref (ctx : Ctx) (st : St) (event : JsValue) (a : Int)
    (user : Option User) (hup : ctx.dbUp st.2 = true)
    (hempty : (st.1.payments.any fun p => p.reference == "") = false)
    (hfresh : (st.1.payments.any fun p => p.reference == "ref_" ++ toString ctx.now) = false) :
    paymentUpsertV2 ctx st event none (some (JsValue.num a)) (some (JsValue.str "GHS")) user =
      Except.ok ({ st.1 with
        payments := st.1.payments ++ [newPaymentRow event ("ref_" ++ toString ctx.now) a user] },
        st.2 + 1) := by
  simp [paymentUpsertV2, dbPaymentUpsert, newPaymentRow, jsOr, truthy, asStr, jsIntUpdateField,
    jsIntCreateField, jsStrictEq, gated, hup, hempty, hfresh]

theorem paymentUpsertV1_update (ctx : Ctx) (st : St) (event : JsValue) (r : String) (a : Int)
    (user : Option User) (hup : ctx.dbUp st.2 = true) (hr : r ≠ "")
    (hany : (st.1.payments.any fun p => p.reference == r) = true) :
    paymentUpsertV1 ctx st event (some (JsValue.str r)) (some (JsValue.num a))
        (some (JsValue.str "GHS")) user =
      Except.ok ({ st.1 with
        payments := st.1.payments.map
          (fun p => if p.reference == r then paymentUpdateRow event (some (some a)) "GHS" p
            else p) },
        st.2 + 1) := by
  have hb : (r != "") = true := bne_iff_ne.mpr hr
  simp [paymentUpsertV1, dbPaymentUpsert, jsOr, truthy, asStr, jsIntUpdateField,
    jsIntCreateField, gated, hb, hup, hany]

theorem paymentUpsertV1_insert (ctx : Ctx) (st : St) (event : JsValue) (r : String) (a : Int)
    (user : Option User) (hup : ctx.dbUp st.2 = true) (hr : r ≠ "")
    (hany : (st.1.payments.any fun p => p.reference == r) = false) :
    paymentUpsertV1 ctx st event (some (JsValue.str r)) (some (JsValue.num a))
        (some (JsValue.str "GHS")) user =
      Except.ok ({ st.1 with payments := st.1.payments ++ [newPaymentRow event r a user] },
        st.2 + 1) := by
  have hb : (r != "") = true := bne_iff_ne.mpr hr
  simp [paymentUpsertV1, dbPaymentUpsert, newPaymentRow, jsOr, truthy, asStr, jsIntUpdateField,
    jsIntCreateField, gated, hb, hup, hany]

theorem paymentUpsertV1_noref (ctx : Ctx) (st : St) (event : JsValue) (a : Int)
    (user : Option User) (hup : ctx.dbUp st.2 = true)
    (hempty : (st.1.payments.any fun p => p.reference == "") = false)
    (hfresh : (st.1.payments.any fun p => p.reference == "ref_" ++ toString ctx.now) = false) :
    paymentUpsertV1 ctx st event none (some (JsValue.num a)) (some (JsValue.str "GHS")) user =
      Except.ok ({ st.1 with
        payments := st.1.payments ++ [newPaymentRow event ("ref_" ++ toString ctx.now) a user] },
        st.2 + 1) := by
  simp [paymentUpsertV1, dbPaymentUpsert, newPaymentRow, jsOr, truthy, asStr, jsIntUpdateField,
    jsIntCreateField, gated, hup, hempty, hfresh]

theorem paymentUpsertV2_subs_ok (ctx : Ctx) (st : St) (ev : JsValue) (r : String) (a : Int)
    (user : Option User) (hup : ctx.dbUp st.2 = true) (hr : r ≠ "") :
    ∃ dbP, paymentUpsertV2 ctx st ev (some (JsValue.str r)) (some (JsValue.num a))
        (some (JsValue.str "GHS")) user = Except.ok (dbP, st.2 + 1) ∧
      dbP.users = st.1.users ∧ dbP.subs = st.1.subs := by
  by_cases hany : (st.1.payments.any fun q => q.reference == r) = true
  · exact ⟨_, paymentUpsertV2_update ctx st ev r a user hup hr hany, rfl, rfl⟩
  · have hanyF : (st.1.payments.any fun q => q.reference == r) = false := by simpa using hany
    exact ⟨_, paymentUpsertV2_insert ctx st ev r a user hup hr hanyF, rfl, rfl⟩

theorem subUpsertV2_str (ctx : Ctx) (st : St) (p uid pk : String)
    (hup : ctx.dbUp st.2 = true) (hp : p ≠ "") :
    subUpsertV2 ctx st (some (JsValue.str p)) uid pk =
      Except.ok (dbSubUpsert st.1 uid pk
        (fun s => { s with
          status := "active", providerPlanCode := some p, lastPaidAt := ctx.now })
        (newSubRow uid pk (some p) ctx.now), st.2 + 1) := by
  have hb : (p != "") = true := bne_iff_ne.mpr hp
  simp [subUpsertV2, jsStrOptUpdateField, jsStrOptCreateField, jsOr, truthy, gated,
    newSubRow, hb, hup]

theorem subUpsertV2_strE (ctx : Ctx) (st : St) (uid pk : String)
    (hup : ctx.dbUp st.2 = true) :
    subUpsertV2 ctx st (some (JsValue.str "")) uid pk =
      Except.ok (dbSubUpsert st.1 uid pk
        (fun s => { s with
          status := "active", providerPlanCode := some "", lastPaidAt := ctx.now })
        (newSubRow uid pk none ctx.now), st.2 + 1) := by
  simp [subUpsertV2, jsStrOptUpdateField, jsStrOptCreateField, jsOr, truthy, gated,
    newSubRow, hup]

theorem subUpsertV2_none (ctx : Ctx) (st : St) (uid pk : String)
    (hup : ctx.dbUp st.2 = true) :
    subUpsertV2 ctx st none uid pk =
      Except.ok (dbSubUpsert st.1 uid pk
        (fun s => { s with
          status := "active", providerPlanCode := s.providerPlanCode, lastPaidAt := ctx.now })
        (newSubRow uid pk none ctx.now), st.2 + 1) := by
  simp [subUpsertV2, jsStrOptUpdateField, jsStrOptCreateField, jsOr, truthy, gated,
    newSubRow, hup]

theorem subUpsertV1_str (ctx : Ctx) (st : St) (p uid pk : String)
    (hup : ctx.dbUp st.2 = true) :
    subUpsertV1 ctx st (some (JsValue.str p)) uid pk =
      Except.ok (dbSubUpsert st.1 uid pk
        (fun s => { s with
          status := "active", providerPlanCode := some p, lastPaidAt := ctx.now })
        (newSubRow uid pk (some p) ctx.now), st.2 + 1) := by
  simp [subUpsertV1, jsStrOptUpdateField, jsStrOptCreateField, gated, newSubRow, hup]

theorem subUpsertV1_none (ctx : Ctx) (st : St) (uid pk : String)
    (hup : ctx.dbUp st.2 = true) :
    subUpsertV1 ctx st none uid pk =
      Except.ok (dbSubUpsert st.1 uid pk
        (fun s => { s with
          status := "active", providerPlanCode := s.providerPlanCode, lastPaidAt := ctx.now })
        (newSubRow uid pk none ctx.now), st.2 + 1) := by
  simp [subUpsertV1, jsStrOptUpdateField, jsStrOptCreateField, gated, newSubRow, hup]

theorem dbSubUpsert_payments (db : DB) (uid pk : String) (upd : Subscription → Subscription)
    (row : Subscription) : (dbSubUpsert db uid pk upd row).payments = db.payments := by
  unfold dbSubUpsert
  split <;> rfl

theorem dbSubUpsert_users (db : DB) (uid pk : String) (upd : Subscription → Subscription)
    (row : Subscription) : (dbSubUpsert db uid pk upd row).users = db.users := by
  unfold dbSubUpsert
  split <;> rfl

theorem subsCancel_eq (ctx : Ctx) (st : St) (uid pk : String) (hup : ctx.dbUp st.2 = true) :
    subsCancel ctx st uid pk =
      Except.ok ({ st.1 with
        subs := st.1.subs.map
          (fun s => if s.userId == uid && s.plan == pk then { s with status := "canceled" }
            else s) }, st.2 + 1) := by
  simp [subsCancel, gated, hup]

theorem subUpsertV2_payments_ok (ctx : Ctx) (st : St) (pc : Option JsValue) (uid pk : String)
    (hup : ctx.dbUp st.2 = true)
    (hok : pc = none ∨ ∃ q, pc = some (JsValue.str q)) :
    ∃ db2, subUpsertV2 ctx st pc uid pk = Except.ok (db2, st.2 + 1) ∧
      db2.payments = st.1.payments ∧ db2.users = st.1.users := by
  rcases hok with h | ⟨q, h⟩ <;> subst h
  · exact ⟨_, subUpsertV2_none ctx st uid pk hup,
      dbSubUpsert_payments _ _ _ _ _, dbSubUpsert_users _ _ _ _ _⟩
  · by_cases hq : q = ""
    · subst hq
      exact ⟨_, subUpsertV2_strE ctx st uid pk hup,
        dbSubUpsert_payments _ _ _ _ _, dbSubUpsert_users _ _ _ _ _⟩
    · exact ⟨_, subUpsertV2_str ctx st q uid pk hup hq,
        dbSubUpsert_payments _ _ _ _ _, dbSubUpsert_users _ _ _ _ _⟩

theorem subUpsertV1_payments_ok (ctx : Ctx) (st : St) (pc : Option JsValue) (uid pk : String)
    (hup : ctx.dbUp st.2 = true)
    (hok : pc = none ∨ ∃ q, pc = some (JsValue.str q)) :
    ∃ db2, subUpsertV1 ctx st pc uid pk = Except.ok (db2, st.2 + 1) ∧
      db2.payments = st.1.payments ∧ db2.users = st.1.users := by
  rcases hok with h | ⟨q, h⟩ <;> subst h
  · exact ⟨_, subUpsertV1_none ctx st uid pk hup,
      dbSubUpsert_payments _ _ _ _ _, dbSubUpsert_users _ _ _ _ _⟩
  · exact ⟨_, subUpsertV1_str ctx st q uid pk hup,
      dbSubUpsert_payments _ _ _ _ _, dbSubUpsert_users _ _ _ _ _⟩

theorem jsOr_str_none_shape (p : String) :
    jsOr (some (JsValue.str p)) none = none ∨
      ∃ q, jsOr (some (JsValue.str p)) none = some (JsValue.str q) := by
  by_cases hp : (p != "") = true
  · exact Or.inr ⟨p, by simp [jsOr, truthy, hp]⟩
  · have hp2 : (p != "") = false := by simpa using hp
    exact Or.inl (by simp [jsOr, truthy, hp2])

theorem paymentsWithRef_update (db : DB) (r : String) (ev : JsValue)
    (ua : Option (Option Int)) (cur : String) (dbf : DB)
    (h : dbf.payments = db.payments.map
      (fun q => if q.reference == r then paymentUpdateRow ev ua cur q else q)) :
    paymentsWithRef dbf r = (paymentsWithRef db r).map (paymentUpdateRow ev ua cur) := by
  simp only [paymentsWithRef, h]
  exact filter_map_ite _ _ (fun x => by simp [paymentUpdateRow]) _

theorem paymentsWithRef_append_row (db : DB) (r : String) (row : Payment) (dbf : DB)
    (hrow : row.reference = r)
    (hnil : (db.payments.any fun q => q.reference == r) = false)
    (h : dbf.payments = db.payments ++ [row]) :
    paymentsWithRef dbf r = [row] := by
  have hf : db.payments.filter (fun q => q.reference == r) = [] := by
    apply List.filter_eq_nil_iff.mpr
    intro x hx
    have := List.any_eq_false.mp hnil x hx
    simpa using this
  simp only [paymentsWithRef, h, List.filter_append, hf]
  simp [hrow]

theorem paymentsWithRef_append_other (db : DB) (r : String) (row : Payment) (dbf : DB)
    (hrow : row.reference ≠ r) (h : dbf.payments = db.payments ++ [row]) :
    paymentsWithRef dbf r = paymentsWithRef db r := by
  simp only [paymentsWithRef, h, List.filter_append]
  simp [beq_eq_false_iff_ne.mpr hrow]

theorem subsWithKey_append_row (db : DB) (uid pk : String) (row : Subscription) (dbf : DB)
    (hrowU : row.userId = uid) (hrowP : row.plan = pk)
    (hnil : (db.subs.any fun s => s.userId == uid && s.plan == pk) = false)
    (h : dbf.subs = db.subs ++ [row]) :
    subsWithKey dbf uid pk = [row] := by
  have hf : db.subs.filter (fun s => s.userId == uid && s.plan == pk) = [] := by
    apply List.filter_eq_nil_iff.mpr
    intro x hx
    have := List.any_eq_false.mp hnil x hx
    simpa using this
  simp only [subsWithKey, h, List.filter_append, hf]
  simp [hrowU, hrowP]

theorem subsWithKey_cancel (db dbf : DB) (uid pk : String)
    (h : dbf.subs = db.subs.map
      (fun s => if s.userId == uid && s.plan == pk then { s with status := "canceled" }
        else s)) :
    subsWithKey dbf uid pk
      = (subsWithKey db uid pk).map (fun s => { s with status := "canceled" }) := by
  simp only [subsWithKey, h]
  exact filter_map_ite _ _ (fun x => by simp) _

theorem chargeSuccessV2_ref (ctx : Ctx) (ev : JsValue) (e r p : String) (a : Int) (db : DB)
    (hup : ∀ i, ctx.dbUp i = true) (he : e ≠ "") (hr : r ≠ "") :
    ∃ dbf m, chargeSuccessV2 ctx ev
        { evt := some (JsValue.str "charge.success"), email := some (JsValue.str e),
          reference := some (JsValue.str r), planCode := jsOr (some (JsValue.str p)) none,
          amount := some (JsValue.num a), currency := some (JsValue.str "GHS") }
        (db, 0) = Except.ok (dbf, m) ∧
      (((db.payments.any fun q => q.reference == r) = true ∧
          dbf.payments = db.payments.map
            (fun q => if q.reference == r then paymentUpdateRow ev (some (some a)) "GHS" q
              else q)) ∨
        ((db.payments.any fun q => q.reference == r) = false ∧
          ∃ row : Payment, row.reference = r ∧ row.status = "success" ∧
            dbf.payments = db.payments ++ [row])) := by
  obtain ⟨u, dbu, k, hcg, hpay, hsubs⟩ := createOrGetUserV2_exists ctx (db, 0) e hup he
  by_cases hany : (db.payments.any fun q => q.reference == r) = true
  · have hany2 : (dbu.payments.any fun q => q.reference == r) = true := by rw [hpay]; exact hany
    have hpu := paymentUpsertV2_update ctx (dbu, k) ev r a (some u) (hup k) hr hany2
    cases hpk : (planKeyV2 ctx (jsOr (some (JsValue.str p)) none) != "unknown") with
    | false =>
      refine ⟨{ dbu with
          payments := dbu.payments.map
            (fun q => if q.reference == r then paymentUpdateRow ev (some (some a)) "GHS" q
              else q) }, k + 1, ?_, Or.inl ⟨hany, ?_⟩⟩
      · simp only [chargeSuccessV2, hcg, hpu, hpk, Bool.false_eq_true, if_false]
      · simp [hpay]
    | true =>
      obtain ⟨dbS, hsu, hSpay, hSusers⟩ := subUpsertV2_payments_ok ctx
        ({ dbu with
           payments := dbu.payments.map
             (fun q => if q.reference == r then paymentUpdateRow ev (some (some a)) "GHS" q
               else q) }, k + 1)
        (jsOr (some (JsValue.str p)) none) (jsUserIdOrEmpty (some u))
        (planKeyV2 ctx (jsOr (some (JsValue.str p)) none)) (hup (k + 1))
        (jsOr_str_none_shape p)
      refine ⟨dbS, k + 1 + 1, ?_, Or.inl ⟨hany, ?_⟩⟩
      · simp only [chargeSuccessV2, hcg, hpu, hpk, if_true, hsu]
      · rw [hSpay]
        simp [hpay]
  · have hanyF : (db.payments.any fun q => q.reference == r) = false := by simpa using hany
    have hany2 : (dbu.payments.any fun q => q.reference == r) = false := by rw [hpay]; exact hanyF
    have hpu := paymentUpsertV2_insert ctx (dbu, k) ev r a (some u) (hup k) hr hany2
    cases hpk : (planKeyV2 ctx (jsOr (some (JsValue.str p)) none) != "unknown") with
    | false =>
      refine ⟨{ dbu with payments := dbu.payments ++ [newPaymentRow ev r a (some u)] },
        k + 1, ?_, Or.inr ⟨hanyF, newPaymentRow ev r a (some u), rfl, rfl, ?_⟩⟩
      · simp only [chargeSuccessV2, hcg, hpu, hpk, Bool.false_eq_true, if_false]
      · simp [hpay]
    | true =>
      obtain ⟨dbS, hsu, hSpay, hSusers⟩ := subUpsertV2_payments_ok ctx
        ({ dbu with payments := dbu.payments ++ [newPaymentRow ev r a (some u)] }, k + 1)
        (jsOr (some (JsValue.str p)) none) (jsUserIdOrEmpty (some u))
        (planKeyV2 ctx (jsOr (some (JsValue.str p)) none)) (hup (k + 1))
        (jsOr_str_none_shape p)
      refine ⟨dbS, k + 1 + 1, ?_, Or.inr ⟨hanyF, newPaymentRow ev r a (some u), rfl, rfl, ?_⟩⟩
      · simp only [chargeSuccessV2, hcg, hpu, hpk, if_true, hsu]
      · rw [hSpay]
        simp [hpay]

theorem reconcileV2_cs_ref (ctx : Ctx) (e r p : String) (a : Int) (db : DB)
    (hup : ∀ i, ctx.dbUp i = true) (he : e ≠ "") (hr : r ≠ "") :
    ∃ st1, reconcileV2 ctx (mkWebhookEvent "charge.success" (some e) (some r) (some p) (some a))
        (db, 0) = Except.ok st1 ∧
      (paymentsWithRef st1.1 r).length
        = (if (paymentsWithRef db r).length = 0 then 1 else (paymentsWithRef db r).length) ∧
      (∀ q ∈ paymentsWithRef st1.1 r, q.status = "success") := by
  obtain ⟨dbf, m, hcs, hdisj⟩ := chargeSuccessV2_ref ctx
    (mkWebhookEvent "charge.success" (some e) (some r) (some p) (some a)) e r p a db hup he hr
  have hb : (e != "") = true := bne_iff_ne.mpr he
  have hx1 : (("charge.success" : String) == "invoice.payment_failed") = false := rfl
  have hx2 : (("charge.success" : String) == "charge.failed") = false := rfl
  have hx3 : (("charge.success" : String) == "subscription.disable") = false := rfl
  refine ⟨(dbf, m), ?_, ?_, ?_⟩
  · simp only [reconcileV2, extract_cs_ref, jsStrictEq, truthy, hb, beq_self_eq_true,
      hx1, hx2, hx3, Bool.true_and, Bool.and_true, Bool.false_and, Bool.and_false,
      Bool.false_or, Bool.or_false, if_true, if_false, hcs]
    simp
  · rcases hdisj with ⟨hany, hmap⟩ | ⟨hany, row, hrow, hst, happ⟩
    · rw [paymentsWithRef_update db r _ _ _ dbf hmap, List.length_map]
      have hne : (paymentsWithRef db r).length ≠ 0 := by
        intro h0
        exact filter_ne_nil_of_any _ _ hany (List.length_eq_zero.mp h0)
      simp [hne]
    · rw [paymentsWithRef_append_row db r row dbf hrow hany happ]
      have h0 : (paymentsWithRef db r).length = 0 := by
        apply List.length_eq_zero.mpr
        apply List.filter_eq_nil_iff.mpr
        intro x hx
        have := List.any_eq_false.mp hany x hx
        simpa using this
      simp [h0]
  · rcases hdisj with ⟨hany, hmap⟩ | ⟨hany, row, hrow, hst, happ⟩
    · rw [paymentsWithRef_update db r _ _ _ dbf hmap]
      intro q hq
      obtain ⟨x, hx, hxq⟩ := List.mem_map.mp hq
      rw [← hxq]
      rfl
    · rw [paymentsWithRef_append_row db r row dbf hrow hany happ]
      intro q hq
      simp at hq
      rw [hq, hst]

theorem payments_upsert_conclusions (db dbf : DB) (r : String) (ev : JsValue) (a : Int)
    (hdisj : ((db.payments.any fun q => q.reference == r) = true ∧
        dbf.payments = db.payments.map
          (fun q => if q.reference == r then paymentUpdateRow ev (some (some a)) "GHS" q
            else q)) ∨
      ((db.payments.any fun q => q.reference == r) = false ∧
        ∃ row : Payment, row.reference = r ∧ row.status = "success" ∧
          dbf.payments = db.payments ++ [row])) :
    (paymentsWithRef dbf r).length
      = (if (paymentsWithRef db r).length = 0 then 1 else (paymentsWithRef db r).length) ∧
    (∀ q ∈ paymentsWithRef dbf r, q.status = "success") := by
  rcases hdisj with ⟨hany, hmap⟩ | ⟨hany, row, hrow, hst, happ⟩
  · constructor
    · rw [paymentsWithRef_update db r _ _ _ dbf hmap, List.length_map]
      have hne : (paymentsWithRef db r).length ≠ 0 := by
        intro h0
        exact filter_ne_nil_of_any _ _ hany (List.length_eq_zero.mp h0)
      simp [hne]
    · rw [paymentsWithRef_update db r _ _ _ dbf hmap]
      intro q hq
      obtain ⟨x, hx, hxq⟩ := List.mem_map.mp hq
      rw [← hxq]
      rfl
  · constructor
    · rw [paymentsWithRef_append_row db r row dbf hrow hany happ]
      have h0 : (paymentsWithRef db r).length = 0 := by
        apply List.length_eq_zero.mpr
        apply List.filter_eq_nil_iff.mpr
        intro x hx
        have := List.any_eq_false.mp hany x hx
        simpa using this
      simp [h0]
    · rw [paymentsWithRef_append_row db r row dbf hrow hany happ]
      intro q hq
      simp at hq
      rw [hq, hst]

theorem reconcileV1_cs_ref_disj (ctx : Ctx) (ev : JsValue) (e r p : String) (a : Int) (db : DB)
    (hup : ∀ i, ctx.dbUp i = true) (he : e ≠ "") (hr : r ≠ "")
    (hex : extractEvent ev =
      { evt := some (JsValue.str "charge.success"), email := some (JsValue.str e),
        reference := some (JsValue.str r), planCode := jsOr (some (JsValue.str p)) none,
        amount := some (JsValue.num a), currency := some (JsValue.str "GHS") }) :
    ((db.payments.any fun q => q.reference == r) = true ∧
      (reconcileV1 ctx ev (db, 0)).1.payments = db.payments.map
        (fun q => if q.reference == r then paymentUpdateRow ev (some (some a)) "GHS" q
          else q)) ∨
    ((db.payments.any fun q => q.reference == r) = false ∧
      ∃ row : Payment, row.reference = r ∧ row.status = "success" ∧
        (reconcileV1 ctx ev (db, 0)).1.payments = db.payments ++ [row]) := by
  have hb : (e != "") = true := bne_iff_ne.mpr he
  obtain ⟨u, dbu, k, hcg, hpay, hsubs⟩ := createOrGetUserV1_exists ctx (db, 0) e hup he
  by_cases hany : (db.payments.any fun q => q.reference == r) = true
  · have hany2 : (dbu.payments.any fun q => q.reference == r) = true := by
      rw [hpay]; exact hany
    have hpu := paymentUpsertV1_update ctx (dbu, k) ev r a (some u) (hup k) hr hany2
    cases hcond : (planKeyV1 ctx (jsOr (some (JsValue.str p)) none) != "unknown"
        && userIdTruthy (some u)) with
    | false =>
      have heq : reconcileV1 ctx ev (db, 0) = ({ dbu with
          payments := dbu.payments.map
            (fun q => if q.reference == r then paymentUpdateRow ev (some (some a)) "GHS" q
              else q) }, k + 1) := by
        simp only [reconcileV1, hex, jsStrictEq, truthy, hb, beq_self_eq_true,
          Bool.true_and, if_true, hcg, hpu, recover, hcond, Bool.false_eq_true, if_false]
      rw [heq]
      exact Or.inl ⟨hany, by simp [hpay]⟩
    | true =>
      obtain ⟨dbS, hsu, hSpay, hSusers⟩ := subUpsertV1_payments_ok ctx
        ({ dbu with
           payments := dbu.payments.map
             (fun q => if q.reference == r then paymentUpdateRow ev (some (some a)) "GHS" q
               else q) }, k + 1)
        (jsOr (some (JsValue.str p)) none) u.id
        (planKeyV1 ctx (jsOr (some (JsValue.str p)) none)) (hup (k + 1))
        (jsOr_str_none_shape p)
      have heq : reconcileV1 ctx ev (db, 0) = (dbS, k + 1 + 1) := by
        simp only [reconcileV1, hex, jsStrictEq, truthy, hb, beq_self_eq_true,
          Bool.true_and, if_true, hcg, hpu, recover, hcond, hsu]
      rw [heq]
      refine Or.inl ⟨hany, ?_⟩
      rw [hSpay]
      simp [hpay]
  · have hanyF : (db.payments.any fun q => q.reference == r) = false := by simpa using hany
    have hany2 : (dbu.payments.any fun q => q.reference == r) = false := by
      rw [hpay]; exact hanyF
    have hpu := paymentUpsertV1_insert ctx (dbu, k) ev r a (some u) (hup k) hr hany2
    cases hcond : (planKeyV1 ctx (jsOr (some (JsValue.str p)) none) != "unknown"
        && userIdTruthy (some u)) with
    | false =>
      have heq : reconcileV1 ctx ev (db, 0) = ({ dbu with
          payments := dbu.payments ++ [newPaymentRow ev r a (some u)] }, k + 1) := by
        simp only [reconcileV1, hex, jsStrictEq, truthy, hb, beq_self_eq_true,
          Bool.true_and, if_true, hcg, hpu, recover, hcond, Bool.false_eq_true, if_false]
      rw [heq]
      exact Or.inr ⟨hanyF, newPaymentRow ev r a (some u), rfl, rfl, by simp [hpay]⟩
    | true =>
      obtain ⟨dbS, hsu, hSpay, hSusers⟩ := subUpsertV1_payments_ok ctx
        ({ dbu with payments := dbu.payments ++ [newPaymentRow ev r a (some u)] }, k + 1)
        (jsOr (some (JsValue.str p)) none) u.id
        (planKeyV1 ctx (jsOr (some (JsValue.str p)) none)) (hup (k + 1))
        (jsOr_str_none_shape p)
      have heq : reconcileV1 ctx ev (db, 0) = (dbS, k + 1 + 1) := by
        simp only [reconcileV1, hex, jsStrictEq, truthy, hb, beq_self_eq_true,
          Bool.true_and, if_true, hcg, hpu, recover, hcond, hsu]
      rw [heq]
      refine Or.inr ⟨hanyF, newPaymentRow ev r a (some u), rfl, rfl, ?_⟩
      rw [hSpay]
      simp [hpay]

theorem reconcileV2_cs_noref (ctx : Ctx) (e : String) (a : Int) (db : DB)
    (hup : ∀ i, ctx.dbUp i = true) (he : e ≠ "")
    (hempty : (db.payments.any fun q => q.reference == "") = false)
    (hfresh : (db.payments.any fun q => q.reference == "ref_" ++ toString ctx.now) = false) :
    ∃ st1, reconcileV2 ctx (mkWebhookEvent "charge.success" (some e) none none (some a))
        (db, 0) = Except.ok st1 ∧
      ∃ row : Payment, row.reference = "ref_" ++ toString ctx.now ∧ row.status = "success" ∧
        st1.1.payments = db.payments ++ [row] := by
  have hb : (e != "") = true := bne_iff_ne.mpr he
  have hx1 : (("charge.success" : String) == "invoice.payment_failed") = false := rfl
  have hx2 : (("charge.success" : String) == "charge.failed") = false := rfl
  have hx3 : (("charge.success" : String) == "subscription.disable") = false := rfl
  obtain ⟨u, dbu, k, hcg, hpay, hsubs⟩ := createOrGetUserV2_exists ctx (db, 0) e hup he
  have hempty2 : (dbu.payments.any fun q => q.reference == "") = false := by
    rw [hpay]; exact hempty
  have hfresh2 : (dbu.payments.any fun q => q.reference == "ref_" ++ toString ctx.now) = false := by
    rw [hpay]; exact hfresh
  have hpu := paymentUpsertV2_noref ctx (dbu, k)
    (mkWebhookEvent "charge.success" (some e) none none (some a)) a (some u) (hup k)
    hempty2 hfresh2
  refine ⟨({ dbu with payments := dbu.payments
      ++ [newPaymentRow (mkWebhookEvent "charge.success" (some e) none none (some a))
        ("ref_" ++ toString ctx.now) a (some u)] }, k + 1), ?_,
    newPaymentRow (mkWebhookEvent "charge.success" (some e) none none (some a))
      ("ref_" ++ toString ctx.now) a (some u), rfl, rfl, by simp [hpay]⟩
  simp only [reconcileV2, extract_cs_noref, jsStrictEq, truthy, hb, beq_self_eq_true,
    hx1, hx2, hx3, Bool.true_and, Bool.and_true, Bool.false_and, Bool.and_false,
    Bool.false_or, Bool.or_false, if_true, if_false, chargeSuccessV2, hcg, hpu,
    planKeyV2, bne_self_eq_false]
  simp

theorem reconcileV1_cs_noref (ctx : Ctx) (e : String) (a : Int) (db : DB)
    (hup : ∀ i, ctx.dbUp i = true) (he : e ≠ "")
    (hempty : (db.payments.any fun q => q.reference == "") = false)
    (hfresh : (db.payments.any fun q => q.reference == "ref_" ++ toString ctx.now) = false) :
    ∃ st1, reconcileV1 ctx (mkWebhookEvent "charge.success" (some e) none none (some a))
        (db, 0) = st1 ∧
      ∃ row : Payment, row.reference = "ref_" ++ toString ctx.now ∧ row.status = "success" ∧
        st1.1.payments = db.payments ++ [row] := by
  have hb : (e != "") = true := bne_iff_ne.mpr he
  obtain ⟨u, dbu, k, hcg, hpay, hsubs⟩ := createOrGetUserV1_exists ctx (db, 0) e hup he
  have hempty2 : (dbu.payments.any fun q => q.reference == "") = false := by
    rw [hpay]; exact hempty
  have hfresh2 : (dbu.payments.any fun q => q.reference == "ref_" ++ toString ctx.now) = false := by
    rw [hpay]; exact hfresh
  have hpu := paymentUpsertV1_noref ctx (dbu, k)
    (mkWebhookEvent "charge.success" (some e) none none (some a)) a (some u) (hup k)
    hempty2 hfresh2
  cases hcond : (planKeyV1 ctx (none : Option JsValue) != "unknown" && userIdTruthy (some u)) with
  | false =>
    refine ⟨({ dbu with payments := dbu.payments
        ++ [newPaymentRow (mkWebhookEvent "charge.success" (some e) none none (some a))
          ("ref_" ++ toString ctx.now) a (some u)] }, k + 1), ?_,
      newPaymentRow (mkWebhookEvent "charge.success" (some e) none none (some a))
        ("ref_" ++ toString ctx.now) a (some u), rfl, rfl, ?_⟩
    · simp only [reconcileV1, extract_cs_noref, jsStrictEq, truthy, hb, beq_self_eq_true,
        Bool.true_and, if_true, hcg, hpu, recover, hcond, Bool.false_eq_true, if_false]
    · simp [hpay]
  | true =>
    obtain ⟨dbS, hsu, hSpay, hSusers⟩ := subUpsertV1_payments_ok ctx
      ({ dbu with payments := dbu.payments
        ++ [newPaymentRow (mkWebhookEvent "charge.success" (some e) none none (some a))
          ("ref_" ++ toString ctx.now) a (some u)] }, k + 1)
      (none : Option JsValue) u.id (planKeyV1 ctx (none : Option JsValue)) (hup (k + 1))
      (Or.inl rfl)
    refine ⟨(dbS, k + 1 + 1), ?_, newPaymentRow
      (mkWebhookEvent "charge.success" (some e) none none (some a))
      ("ref_" ++ toString ctx.now) a (some u), rfl, rfl, ?_⟩
    · simp only [reconcileV1, extract_cs_noref, jsStrictEq, truthy, hb, beq_self_eq_true,
        Bool.true_and, if_true, hcg, hpu, recover, hcond, hsu]
    · rw [hSpay]
      simp [hpay]

/-! ### The claims -/

/-- Claim C1, counterexample: with the configured secret absent (empty), the hex HMAC-SHA512 of the body under the empty key is a signature value that verifies successfully — the webhook answers 200, not 401 — refuting that verification always fails without a secret. -/
theorem c1_counterexample :
    webhookV2 noSecretCtx (some (hmacSha512Hex "" "{}")) "{}" emptyDB = (200, emptyDB) := by
  have h1 : hmacSha512Hex "" "{}" = hmacSha512Hex noSecretCtx.secret "{}" := rfl
  rw [h1, webhookV2_valid_sig]
  rfl

/-- Claim C1 (amended): a missing signature header always fails verification — both variants answer 401 with the state unchanged — but when the configured secret is absent the code signs with the empty-string key, so the empty-key HMAC of any body passes verification (the response is never 401) rather than verification always failing. -/
theorem c1_amended :
    (∀ ctx (header : Option String) body db, header = none →
      webhookV1 ctx header body db = (401, db) ∧ webhookV2 ctx header body db = (401, db)) ∧
    (∀ ctx body db, ctx.secret = "" →
      (webhookV1 ctx (some (hmacSha512Hex "" body)) body db).1 ≠ 401 ∧
      (webhookV2 ctx (some (hmacSha512Hex "" body)) body db).1 ≠ 401) := by
  constructor
  · intro ctx header body db h
    subst h
    exact ⟨webhookV1_bad_sig ctx none body db (by simp),
      webhookV2_bad_sig ctx none body db (by simp)⟩
  · intro ctx body db hs
    rw [← hs, webhookV1_valid_sig, webhookV2_valid_sig]
    constructor
    · unfold webhookBodyV1
      split <;> simp
    · unfold webhookBodyV2
      split
      · simp
      · split <;> simp

/-- Witness for the amended claim C1 at the empty body and an absent secret. -/
theorem c1_amended_witness :
    ((none : Option String) = none) ∧
    webhookV1 noSecretCtx none "{}" emptyDB = (401, emptyDB) ∧
    (noSecretCtx.secret = "") ∧
    (webhookV2 noSecretCtx (some (hmacSha512Hex "" "{}")) "{}" emptyDB).1 ≠ 401 := by
  refine ⟨rfl, (c1_amended.1 noSecretCtx none "{}" emptyDB rfl).1, rfl, ?_⟩
  exact (c1_amended.2 noSecretCtx "{}" emptyDB rfl).2

/-- Claim C2, counterexample: a signature-valid, JSON-parsing charge.success delivery during a persistence outage makes variant 2 answer 500, not 200. -/
theorem c2_counterexample :
    webhookV2 downCtx (some (hmacSha512Hex downCtx.secret demoBody)) demoBody emptyDB
      = (500, emptyDB) := by
  rw [webhookV2_valid_sig]
  rfl

/-- Claim C2 (amended): variant 1 answers 200 for every signature-valid delivery whose body parses as JSON, regardless of persistence availability; variant 2 answers 500 when the persistence layer is down during a charge.success delivery, because its reconciliation has no per-step catch. -/
theorem c2_amended :
    (∀ ctx body db, (parseJson body).isSome = true →
      (webhookV1 ctx (some (hmacSha512Hex ctx.secret body)) body db).1 = 200) ∧
    (∀ ctx db (e r p : String) (a : Int) (body : String), (∀ i, ctx.dbUp i = false) → e ≠ "" →
      parseJson body
        = some (mkWebhookEvent "charge.success" (some e) (some r) (some p) (some a)) →
      webhookV2 ctx (some (hmacSha512Hex ctx.secret body)) body db = (500, db)) := by
  constructor
  · intro ctx body db hp
    rw [webhookV1_valid_sig]
    unfold webhookBodyV1
    match h : parseJson body with
    | none => rw [h] at hp; simp at hp
    | some ev => rfl
  · intro ctx db e r p a body hdown he hparse
    have hb : (e != "") = true := bne_iff_ne.mpr he
    rw [webhookV2_valid_sig]
    unfold webhookBodyV2
    rw [hparse]
    simp [reconcileV2, chargeSuccessV2, createOrGetUserV2, gated, extractEvent, mkWebhookEvent,
      jsGetOpt, jsField, jsOr, jsStrictEq, truthy, asStr, List.foldl, hb, hdown]

/-- Witness for the amended claim C2 at the spec scenario body. -/
theorem c2_amended_witness :
    ((parseJson demoBody).isSome = true) ∧
    (webhookV1 downCtx (some (hmacSha512Hex downCtx.secret demoBody)) demoBody emptyDB).1 = 200 ∧
    (∀ i, downCtx.dbUp i = false) ∧ ("a@x.com" ≠ "") ∧
    (parseJson demoBody = some (mkWebhookEvent "charge.success" (some "a@x.com") (some "ref1")
      (some "PLN_premium") (some 4900))) ∧
    webhookV2 downCtx (some (hmacSha512Hex downCtx.secret demoBody)) demoBody emptyDB
      = (500, emptyDB) := by
  refine ⟨by rfl, ?_, fun i => rfl, by decide, by rfl, ?_⟩
  · exact c2_amended.1 downCtx demoBody emptyDB (by rfl)
  · exact c2_amended.2 downCtx emptyDB "a@x.com" "ref1" "PLN_premium" 4900 demoBody
      (fun i => rfl) (by decide) (by rfl)

/-! machinery -/

/-- Claim C3: for every non-empty reference, applying the same ChargeSucceeded event twice (in either variant, persistence available) leaves exactly one Payment row with that reference, and its status is success — the second application updates rather than duplicates. -/
theorem c3_duplicate_charge_idempotent :
    ∀ ctx (e r p : String) (a : Int) (db : DB),
      (∀ i, ctx.dbUp i = true) → e ≠ "" → r ≠ "" →
      (paymentsWithRef db r).length ≤ 1 →
      (∃ st1 st2,
        reconcileV2 ctx (mkWebhookEvent "charge.success" (some e) (some r) (some p) (some a))
          (db, 0) = Except.ok st1 ∧
        reconcileV2 ctx (mkWebhookEvent "charge.success" (some e) (some r) (some p) (some a))
          (st1.1, 0) = Except.ok st2 ∧
        (paymentsWithRef st2.1 r).length = 1 ∧
        (∀ q ∈ paymentsWithRef st2.1 r, q.status = "success")) ∧
      (∃ t2,
        reconcileV1 ctx (mkWebhookEvent "charge.success" (some e) (some r) (some p) (some a))
          ((reconcileV1 ctx (mkWebhookEvent "charge.success" (some e) (some r) (some p) (some a))
            (db, 0)).1, 0) = t2 ∧
        (paymentsWithRef t2.1 r).length = 1 ∧
        (∀ q ∈ paymentsWithRef t2.1 r, q.status = "success")) := by
  intro ctx e r p a db hup he hr hcount
  constructor
  · obtain ⟨st1, h1, hlen1, hst1⟩ := reconcileV2_cs_ref ctx e r p a db hup he hr
    obtain ⟨st2, h2, hlen2, hst2⟩ := reconcileV2_cs_ref ctx e r p a st1.1 hup he hr
    refine ⟨st1, st2, h1, h2, ?_, hst2⟩
    have l1 : (paymentsWithRef st1.1 r).length = 1 := by
      by_cases h0 : (paymentsWithRef db r).length = 0
      · rw [hlen1, if_pos h0]
      · have h1' : (paymentsWithRef db r).length = 1 := by omega
        rw [hlen1, if_neg h0, h1']
    rw [hlen2, l1]
    simp
  · have hd1 := reconcileV1_cs_ref_disj ctx
      (mkWebhookEvent "charge.success" (some e) (some r) (some p) (some a)) e r p a db
      hup he hr (extract_cs_ref "charge.success" e r p a)
    have hc1 := payments_upsert_conclusions db
      (reconcileV1 ctx (mkWebhookEvent "charge.success" (some e) (some r) (some p) (some a))
        (db, 0)).1 r
      (mkWebhookEvent "charge.success" (some e) (some r) (some p) (some a)) a hd1
    have hd2 := reconcileV1_cs_ref_disj ctx
      (mkWebhookEvent "charge.success" (some e) (some r) (some p) (some a)) e r p a
      (reconcileV1 ctx (mkWebhookEvent "charge.success" (some e) (some r) (some p) (some a))
        (db, 0)).1
      hup he hr (extract_cs_ref "charge.success" e r p a)
    have hc2 := payments_upsert_conclusions
      (reconcileV1 ctx (mkWebhookEvent "charge.success" (some e) (some r) (some p) (some a))
        (db, 0)).1
      (reconcileV1 ctx (mkWebhookEvent "charge.success" (some e) (some r) (some p) (some a))
        ((reconcileV1 ctx (mkWebhookEvent "charge.success" (some e) (some r) (some p) (some a))
          (db, 0)).1, 0)).1 r
      (mkWebhookEvent "charge.success" (some e) (some r) (some p) (some a)) a hd2
    refine ⟨_, rfl, ?_, hc2.2⟩
    have l1 : (paymentsWithRef (reconcileV1 ctx
        (mkWebhookEvent "charge.success" (some e) (some r) (some p) (some a)) (db, 0)).1 r).length
        = 1 := by
      by_cases h0 : (paymentsWithRef db r).length = 0
      · rw [hc1.1, if_pos h0]
      · have h1' : (paymentsWithRef db r).length = 1 := by omega
        rw [hc1.1, if_neg h0, h1']
    rw [hc2.1, l1]
    simp

/-- Witness for claim C3 at the spec scenario event over the empty database. -/
theorem c3_witness :
    (∀ i, demoCtx.dbUp i = true) ∧ ("a@x.com" ≠ "") ∧ ("r1" ≠ "") ∧
    (paymentsWithRef emptyDB "r1").length ≤ 1 ∧
    ((∃ st1 st2,
        reconcileV2 demoCtx
          (mkWebhookEvent "charge.success" (some "a@x.com") (some "r1") (some "PLN_premium")
            (some 4900)) (emptyDB, 0) = Except.ok st1 ∧
        reconcileV2 demoCtx
          (mkWebhookEvent "charge.success" (some "a@x.com") (some "r1") (some "PLN_premium")
            (some 4900)) (st1.1, 0) = Except.ok st2 ∧
        (paymentsWithRef st2.1 "r1").length = 1 ∧
        (∀ q ∈ paymentsWithRef st2.1 "r1", q.status = "success")) ∧
      (∃ t2,
        reconcileV1 demoCtx
          (mkWebhookEvent "charge.success" (some "a@x.com") (some "r1") (some "PLN_premium")
            (some 4900))
          ((reconcileV1 demoCtx
            (mkWebhookEvent "charge.success" (some "a@x.com") (some "r1") (some "PLN_premium")
              (some 4900)) (emptyDB, 0)).1, 0) = t2 ∧
        (paymentsWithRef t2.1 "r1").length = 1 ∧
        (∀ q ∈ paymentsWithRef t2.1 "r1", q.status = "success"))) :=
  ⟨fun i => rfl, by decide, by decide, by decide,
    c3_duplicate_charge_idempotent demoCtx "a@x.com" "r1" "PLN_premium" 4900 emptyDB
      (fun i => rfl) (by decide) (by decide) (by decide)⟩

/-- Claim C4, code bug evaluation: variant 1 resolves an absent plan code to premium and even the configured premium code to unknown, because the webhook reads PLAN_CODES.premium while the variant-1 object keys are PAYSTACK_PLAN_PREMIUM and PAYSTACK_PLAN_PRO; variant 2 resolves correctly. -/
theorem c4_plan_resolution_bug :
    planKeyV1 demoCtx none = "premium" ∧
    planKeyV1 demoCtx (some (JsValue.str "PLN_premium")) = "unknown" ∧
    planKeyV1 demoCtx (some (JsValue.str "")) = "unknown" ∧
    planKeyV2 demoCtx (some (JsValue.str "PLN_premium")) = "premium" ∧
    planKeyV2 demoCtx none = "unknown" :=
  ⟨rfl, rfl, rfl, rfl, rfl⟩

/-- Claim C5, counterexample: variant 2 answers status none for an unknown user and a 500 error on persistence failure, not status free. -/
theorem c5_counterexample :
    statusV2 demoCtx emptyDB "a@x.com" = StatusResp.noneStatus ∧
    statusV2 downCtx emptyDB "a@x.com" = StatusResp.failure := ⟨rfl, rfl⟩

/-- Claim C5 (amended): variant 1 answers status free for a missing user, for a user with no active subscription row, and on persistence failure; variant 2 answers status none for a missing user, status free only for a user without an active row, and a 500 error on persistence failure. -/
theorem c5_amended :
    (∀ ctx db (email : String), email ≠ "" → ctx.dbUp 0 = true → dbFindUser db email = none →
      statusV1 ctx db email = StatusResp.free ∧ statusV2 ctx db email = StatusResp.noneStatus) ∧
    (∀ ctx db (email : String) u, email ≠ "" → ctx.dbUp 0 = true →
      dbFindUser db email = some u →
      (subsOfUser db u.id).find? (fun s => s.status == "active") = none →
      statusV1 ctx db email = StatusResp.free ∧ statusV2 ctx db email = StatusResp.free) ∧
    (∀ ctx db (email : String), email ≠ "" → ctx.dbUp 0 = false →
      statusV1 ctx db email = StatusResp.free ∧ statusV2 ctx db email = StatusResp.failure) := by
  refine ⟨?_, ?_, ?_⟩
  · intro ctx db email he hup hf
    simp [statusV1, statusV2, gated, he, hup, hf]
  · intro ctx db email u he hup hf hfind
    simp [statusV1, statusV2, gated, he, hup, hf, hfind]
  · intro ctx db email he hdown
    simp [statusV1, statusV2, gated, he, hdown]

/-- Witness for the amended claim C5 at concrete databases. -/
theorem c5_amended_witness :
    ("a@x.com" ≠ "") ∧ (demoCtx.dbUp 0 = true) ∧ (dbFindUser emptyDB "a@x.com" = none) ∧
    statusV1 demoCtx emptyDB "a@x.com" = StatusResp.free ∧
    (dbFindUser canceledDB "a@x.com" = some demoUser) ∧
    ((subsOfUser canceledDB demoUser.id).find? (fun s => s.status == "active") = none) ∧
    statusV1 demoCtx canceledDB "a@x.com" = StatusResp.free ∧
    statusV2 demoCtx canceledDB "a@x.com" = StatusResp.free ∧
    (downCtx.dbUp 0 = false) ∧
    statusV2 downCtx emptyDB "a@x.com" = StatusResp.failure := by
  refine ⟨by decide, rfl, by rfl, ?_, by rfl, by rfl, ?_, ?_, rfl, ?_⟩
  · exact (c5_amended.1 demoCtx emptyDB "a@x.com" (by decide) rfl (by rfl)).1
  · exact (c5_amended.2.1 demoCtx canceledDB "a@x.com" demoUser
      (by decide) rfl (by rfl) (by rfl)).1
  · exact (c5_amended.2.1 demoCtx canceledDB "a@x.com" demoUser
      (by decide) rfl (by rfl) (by rfl)).2
  · exact (c5_amended.2.2 downCtx emptyDB "a@x.com" (by decide) rfl).2

/-- Claim C6, counterexample: variant 1 leaves a matching Payment row at status success after a charge.failed event — it processes only charge.success, so the row is never marked failed. -/
theorem c6_counterexample :
    reconcileV1 demoCtx (mkWebhookEvent "charge.failed" none (some "r1") none none) (paidDB, 0)
        = (paidDB, 0) ∧
    (paymentsWithRef paidDB "r1").map (fun p => p.status) = ["success"] := ⟨rfl, by rfl⟩

/-- Claim C6 (amended): in variant 2 a charge.failed or invoice.payment_failed event with a non-empty reference marks every matching Payment row failed via update-if-exists, is a no-op (never an error) when no row matches, and changes nothing without a reference; variant 1 ignores these event kinds entirely. -/
theorem c6_amended :
    (∀ ctx db (r evtName : String),
      (evtName = "charge.failed" ∨ evtName = "invoice.payment_failed") → r ≠ "" →
      ctx.dbUp 0 = true →
      reconcileV2 ctx (mkWebhookEvent evtName none (some r) none none) (db, 0)
        = Except.ok ({ db with
            payments := db.payments.map
              (fun p => if p.reference == r then { p with status := "failed" } else p) }, 1)) ∧
    (∀ ctx db (r evtName : String),
      (evtName = "charge.failed" ∨ evtName = "invoice.payment_failed") → r ≠ "" →
      ctx.dbUp 0 = true → paymentsWithRef db r = [] →
      reconcileV2 ctx (mkWebhookEvent evtName none (some r) none none) (db, 0)
        = Except.ok (db, 1)) ∧
    (∀ ctx db (evtName : String),
      (evtName = "charge.failed" ∨ evtName = "invoice.payment_failed") →
      reconcileV2 ctx (mkWebhookEvent evtName none none none none) (db, 0)
        = Except.ok (db, 0)) ∧
    (∀ ctx db (evtName : String) (r : Option String),
      (evtName = "charge.failed" ∨ evtName = "invoice.payment_failed") →
      reconcileV1 ctx (mkWebhookEvent evtName none r none none) (db, 0) = (db, 0)) := by
  have step1 : ∀ ctx db (r evtName : String),
      (evtName = "charge.failed" ∨ evtName = "invoice.payment_failed") → r ≠ "" →
      ctx.dbUp 0 = true →
      reconcileV2 ctx (mkWebhookEvent evtName none (some r) none none) (db, 0)
        = Except.ok ({ db with
            payments := db.payments.map
              (fun p => if p.reference == r then { p with status := "failed" } else p) }, 1) := by
    intro ctx db r evtName hev hr hup
    have hb : (r != "") = true := bne_iff_ne.mpr hr
    rcases hev with h | h <;> subst h <;>
      simp [reconcileV2, chargeSuccessV2, chargeFailedV2, subDisableV2, paymentsMarkFailed,
        gated, extractEvent, mkWebhookEvent, jsGetOpt, jsField, jsOr, jsStrictEq, truthy,
        asStr, List.foldl, hb, hup]
  refine ⟨step1, ?_, ?_, ?_⟩
  · intro ctx db r evtName hev hr hup hnone
    have hall : ∀ p ∈ db.payments, (p.reference == r) = false := by
      intro p hp
      have := List.filter_eq_nil_iff.mp hnone p hp
      simpa using this
    have hm : db.payments.map
        (fun p => if p.reference == r then { p with status := "failed" } else p)
        = db.payments := by
      calc db.payments.map
            (fun p => if p.reference == r then { p with status := "failed" } else p)
          = db.payments.map id := by
            apply List.map_congr_left
            intro p hp
            simp [hall p hp]
        _ = db.payments := List.map_id _
    rw [step1 ctx db r evtName hev hr hup, hm]
  · intro ctx db evtName hev
    rcases hev with h | h <;> subst h <;> rfl
  · intro ctx db evtName r hev
    rcases hev with h | h <;> subst h <;> cases r <;> rfl

/-- Witness for the amended claim C6 at concrete databases. -/
theorem c6_amended_witness :
    (("charge.failed" : String) = "charge.failed" ∨ ("charge.failed" : String) = "invoice.payment_failed") ∧
    ("r1" ≠ "") ∧ (demoCtx.dbUp 0 = true) ∧ (paymentsWithRef emptyDB "r1" = []) ∧
    reconcileV2 demoCtx (mkWebhookEvent "charge.failed" none (some "r1") none none) (paidDB, 0)
      = Except.ok ({ paidDB with
          payments := paidDB.payments.map
            (fun p => if p.reference == "r1" then { p with status := "failed" } else p) }, 1) ∧
    reconcileV2 demoCtx (mkWebhookEvent "charge.failed" none (some "r1") none none) (emptyDB, 0)
      = Except.ok (emptyDB, 1) ∧
    reconcileV2 demoCtx (mkWebhookEvent "invoice.payment_failed" none none none none) (emptyDB, 0)
      = Except.ok (emptyDB, 0) ∧
    reconcileV1 demoCtx (mkWebhookEvent "invoice.payment_failed" none (some "r1") none none)
      (paidDB, 0) = (paidDB, 0) := by
  refine ⟨Or.inl rfl, by decide, rfl, rfl, ?_, ?_, ?_, ?_⟩
  · exact c6_amended.1 demoCtx paidDB "r1" "charge.failed" (Or.inl rfl) (by decide) rfl
  · exact c6_amended.2.1 demoCtx emptyDB "r1" "charge.failed" (Or.inl rfl) (by decide) rfl rfl
  · exact c6_amended.2.2.1 demoCtx emptyDB "invoice.payment_failed" (Or.inr rfl)
  · exact c6_amended.2.2.2 demoCtx paidDB "invoice.payment_failed" (some "r1") (Or.inr rfl)

/-- Claim C7, counterexample: in variant 1 a ChargeSucceeded event carrying the configured premium plan code creates no Subscription row (the code resolves it to unknown), and a SubscriptionDisabled event leaves an active row untouched. -/
theorem c7_counterexample :
    (reconcileV1 demoCtx (mkWebhookEvent "charge.success" (some "a@x.com") (some "r1")
        (some "PLN_premium") (some 4900)) (emptyDB, 0)).1.subs = [] ∧
    reconcileV1 demoCtx (mkWebhookEvent "subscription.disable" (some "a@x.com") none
        (some "PLN_premium") none) (activeSubDB, 0) = (activeSubDB, 0) := ⟨by rfl, by rfl⟩

/-- Claim C7 (amended): in variant 2, a ChargeSucceeded event with the configured premium plan code creates exactly one (userId, plan) Subscription row with status active for a user with no prior row, and a subsequent SubscriptionDisabled event for the same pair sets that one row to canceled without creating a second; variant 1 ignores SubscriptionDisabled events entirely. -/
theorem c7_amended :
    (∀ (ctx : Ctx) (e r : String) (a : Int) (db : DB) (u : User),
      (∀ i, ctx.dbUp i = true) → e ≠ "" → r ≠ "" → ctx.planPremium ≠ "" →
      dbFindUser db e = some u →
      subsWithKey db u.id "premium" = [] →
      ∃ st1 st2,
        reconcileV2 ctx (mkWebhookEvent "charge.success" (some e) (some r)
          (some ctx.planPremium) (some a)) (db, 0) = Except.ok st1 ∧
        (subsWithKey st1.1 u.id "premium").map (fun s => s.status) = ["active"] ∧
        reconcileV2 ctx (mkWebhookEvent "subscription.disable" (some e) none
          (some ctx.planPremium) none) (st1.1, 0) = Except.ok st2 ∧
        (subsWithKey st2.1 u.id "premium").map (fun s => s.status) = ["canceled"]) ∧
    (∀ (ctx : Ctx) (db : DB) (e p : String),
      reconcileV1 ctx (mkWebhookEvent "subscription.disable" (some e) none (some p) none)
        (db, 0) = (db, 0)) := by
  constructor
  · intro ctx e r a db u hup he hr hP hf hs0
    have hb : (e != "") = true := bne_iff_ne.mpr he
    have hbp : (ctx.planPremium != "") = true := bne_iff_ne.mpr hP
    have hx1 : (("charge.success" : String) == "invoice.payment_failed") = false := rfl
    have hx2 : (("charge.success" : String) == "charge.failed") = false := rfl
    have hx3 : (("charge.success" : String) == "subscription.disable") = false := rfl
    have hy1 : (("subscription.disable" : String) == "charge.success") = false := rfl
    have hy2 : (("subscription.disable" : String) == "invoice.payment_failed") = false := rfl
    have hy3 : (("subscription.disable" : String) == "charge.failed") = false := rfl
    have hpn : (("premium" : String) != "unknown") = true := rfl
    have hcg : createOrGetUserV2 ctx (db, 0) (some (JsValue.str e))
        = Except.ok (some u, (db, 1)) := createOrGetUserV2_found ctx (db, 0) e u (hup 0) he hf
    obtain ⟨dbP, hpu0, hPusers0, hPsubs0⟩ := paymentUpsertV2_subs_ok ctx (db, 1)
      (mkWebhookEvent "charge.success" (some e) (some r) (some ctx.planPremium) (some a))
      r a (some u) (hup 1) hr
    have hpu : paymentUpsertV2 ctx (db, 1)
        (mkWebhookEvent "charge.success" (some e) (some r) (some ctx.planPremium) (some a))
        (some (JsValue.str r)) (some (JsValue.num a)) (some (JsValue.str "GHS")) (some u)
        = Except.ok (dbP, 2) := hpu0
    have hPusers : dbP.users = db.users := hPusers0
    have hPsubs : dbP.subs = db.subs := hPsubs0
    have hpk : planKeyV2 ctx (jsOr (some (JsValue.str ctx.planPremium)) none) = "premium" := by
      simp [planKeyV2, jsOr, truthy, jsStrictEq, hbp]
    have hor : jsOr (some (JsValue.str ctx.planPremium)) none
        = some (JsValue.str ctx.planPremium) := by
      simp [jsOr, truthy, hbp]
    have hpk2 : planKeyV2 ctx (some (JsValue.str ctx.planPremium)) = "premium" := by
      simp [planKeyV2, jsStrictEq]
    have hid : jsUserIdOrEmpty (some u) = u.id := rfl
    have hanyS : (dbP.subs.any fun s => s.userId == u.id && s.plan == "premium") = false := by
      rw [hPsubs]
      exact any_false_of_filter_nil _ _ hs0
    have hsu0 := subUpsertV2_str ctx (dbP, 2) ctx.planPremium u.id "premium" (hup 2) hP
    have hsu : subUpsertV2 ctx (dbP, 2) (some (JsValue.str ctx.planPremium)) u.id "premium"
        = Except.ok ({ dbP with
            subs := dbP.subs ++ [newSubRow u.id "premium" (some ctx.planPremium) ctx.now] },
          3) := by
      rw [hsu0]
      simp [dbSubUpsert, hanyS]
    have heq1 : reconcileV2 ctx (mkWebhookEvent "charge.success" (some e) (some r)
        (some ctx.planPremium) (some a)) (db, 0) = Except.ok (({ dbP with
          subs := dbP.subs ++ [newSubRow u.id "premium" (some ctx.planPremium) ctx.now] },
        3)) := by
      simp only [reconcileV2, extract_cs_ref, jsStrictEq, truthy, hb, beq_self_eq_true,
        hx1, hx2, hx3, Bool.true_and, Bool.and_true, Bool.false_and, Bool.and_false,
        Bool.false_or, Bool.or_false, if_true, if_false, chargeSuccessV2, hcg, hpu,
        hpk, hpn, hor, hid, hsu]
      simp [hpk2, hsu]
    have hsubs1 : ({ dbP with
        subs := dbP.subs ++ [newSubRow u.id "premium" (some ctx.planPremium) ctx.now] }
          : DB).subs
        = dbP.subs ++ [newSubRow u.id "premium" (some ctx.planPremium) ctx.now] := rfl
    have hkey1 : subsWithKey ({ dbP with
        subs := dbP.subs ++ [newSubRow u.id "premium" (some ctx.planPremium) ctx.now] })
          u.id "premium"
        = [newSubRow u.id "premium" (some ctx.planPremium) ctx.now] :=
      subsWithKey_append_row dbP u.id "premium" _ _ rfl rfl hanyS hsubs1
    have hfind1 : dbFindUser ({ dbP with
        subs := dbP.subs ++ [newSubRow u.id "premium" (some ctx.planPremium) ctx.now] }) e
        = some u := by
      have hu1 : ({ dbP with
          subs := dbP.subs ++ [newSubRow u.id "premium" (some ctx.planPremium) ctx.now] }
            : DB).users = db.users := hPusers
      rw [dbFindUser_eq_of_users _ db e hu1]
      exact hf
    have hdk : planKeyDisableV2 ctx (some (JsValue.str ctx.planPremium)) = some "premium" := by
      simp [planKeyDisableV2, jsStrictEq]
    have hsc := subsCancel_eq ctx
      (({ dbP with
        subs := dbP.subs ++ [newSubRow u.id "premium" (some ctx.planPremium) ctx.now] }
          : DB), 1) u.id "premium" (hup 1)
    have heq2 : reconcileV2 ctx (mkWebhookEvent "subscription.disable" (some e) none
        (some ctx.planPremium) none)
        (({ dbP with
          subs := dbP.subs ++ [newSubRow u.id "premium" (some ctx.planPremium) ctx.now] }
            : DB), 0)
        = Except.ok (({ ({ dbP with
            subs := dbP.subs ++ [newSubRow u.id "premium" (some ctx.planPremium) ctx.now] }
              : DB) with
          subs := ({ dbP with
            subs := dbP.subs ++ [newSubRow u.id "premium" (some ctx.planPremium) ctx.now] }
              : DB).subs.map
            (fun s => if s.userId == u.id && s.plan == "premium"
              then { s with status := "canceled" } else s) }, 2)) := by
      simp only [reconcileV2, extract_disable, jsStrictEq, truthy, hb, hbp, beq_self_eq_true,
        hy1, hy2, hy3, Bool.true_and, Bool.and_true, Bool.false_and, Bool.and_false,
        Bool.false_or, Bool.or_false, if_true, if_false, hor, subDisableV2, asStr, gated,
        hup, hfind1, hdk, hsc]
      simp [hup, hfind1, hdk, hsc]
    refine ⟨_, _, heq1, ?_, heq2, ?_⟩
    · rw [hkey1]
      rfl
    · rw [subsWithKey_cancel ({ dbP with
          subs := dbP.subs ++ [newSubRow u.id "premium" (some ctx.planPremium) ctx.now] }) _
          u.id "premium" rfl]
      rw [hkey1]
      rfl
  · intro ctx db e p
    rfl

/-- Witness for the amended claim C7 over a database holding only the user. -/
theorem c7_amended_witness :
    (∀ i, demoCtx.dbUp i = true) ∧ ("a@x.com" ≠ "") ∧ ("r1" ≠ "") ∧
    (demoCtx.planPremium ≠ "") ∧
    (dbFindUser userDB "a@x.com" = some demoUser) ∧
    (subsWithKey userDB demoUser.id "premium" = []) ∧
    (∃ st1 st2,
      reconcileV2 demoCtx (mkWebhookEvent "charge.success" (some "a@x.com") (some "r1")
        (some demoCtx.planPremium) (some 4900)) (userDB, 0) = Except.ok st1 ∧
      (subsWithKey st1.1 demoUser.id "premium").map (fun s => s.status) = ["active"] ∧
      reconcileV2 demoCtx (mkWebhookEvent "subscription.disable" (some "a@x.com") none
        (some demoCtx.planPremium) none) (st1.1, 0) = Except.ok st2 ∧
      (subsWithKey st2.1 demoUser.id "premium").map (fun s => s.status) = ["canceled"]) :=
  ⟨fun i => rfl, by decide, by decide, by decide, by rfl, by rfl,
    c7_amended.1 demoCtx "a@x.com" "r1" 4900 userDB demoUser (fun i => rfl) (by decide)
      (by decide) (by decide) (by rfl) (by rfl)⟩

/-- Claim C8: in both variants a delivery whose header differs from the hex HMAC-SHA512 of the raw body answers 401 with the state unchanged — no parse, no persistence — and a signature-valid delivery whose body does not parse as JSON answers 500. -/
theorem c8_reject_and_malformed :
    (∀ ctx (header : Option String) body db,
      header ≠ some (hmacSha512Hex ctx.secret body) →
      webhookV1 ctx header body db = (401, db) ∧ webhookV2 ctx header body db = (401, db)) ∧
    (∀ ctx body db, parseJson body = none →
      webhookV1 ctx (some (hmacSha512Hex ctx.secret body)) body db = (500, db) ∧
      webhookV2 ctx (some (hmacSha512Hex ctx.secret body)) body db = (500, db)) := by
  constructor
  · intro ctx header body db h
    exact ⟨webhookV1_bad_sig ctx header body db h, webhookV2_bad_sig ctx header body db h⟩
  · intro ctx body db h
    rw [webhookV1_valid_sig, webhookV2_valid_sig]
    unfold webhookBodyV1 webhookBodyV2
    rw [h]
    exact ⟨rfl, rfl⟩

/-- Witness for claim C8 at a missing header and at an unparseable body. -/
theorem c8_witness :
    ((none : Option String) ≠ some (hmacSha512Hex demoCtx.secret "{}")) ∧
    webhookV1 demoCtx none "{}" emptyDB = (401, emptyDB) ∧
    (parseJson "\x7b" = none) ∧
    webhookV2 demoCtx (some (hmacSha512Hex demoCtx.secret "\x7b")) "\x7b" emptyDB = (500, emptyDB) := by
  refine ⟨by simp, ?_, rfl, ?_⟩
  · exact (c8_reject_and_malformed.1 demoCtx none "{}" emptyDB (by simp)).1
  · exact (c8_reject_and_malformed.2 demoCtx "\x7b" emptyDB rfl).2

/-- Claim C10: a charge.success event with a non-empty email but no reference creates a Payment row whose reference is the synthetic ref_<timestamp>; because the upsert looks up the empty string while creating the synthetic reference, redelivery at a distinct processing timestamp creates a second fresh row instead of converging, in both variants. -/
theorem c10_missing_reference_duplicates :
    ∀ (ctx : Ctx) (e : String) (a : Int) (n1 n2 : Nat) (db : DB),
      (∀ i, ctx.dbUp i = true) → e ≠ "" →
      paymentsWithRef db "" = [] →
      paymentsWithRef db ("ref_" ++ toString n1) = [] →
      paymentsWithRef db ("ref_" ++ toString n2) = [] →
      ("ref_" ++ toString n1 : String) ≠ ("ref_" ++ toString n2) →
      (∃ st1 st2,
        reconcileV2 { ctx with now := n1 }
          (mkWebhookEvent "charge.success" (some e) none none (some a)) (db, 0)
          = Except.ok st1 ∧
        reconcileV2 { ctx with now := n2 }
          (mkWebhookEvent "charge.success" (some e) none none (some a)) (st1.1, 0)
          = Except.ok st2 ∧
        (paymentsWithRef st2.1 ("ref_" ++ toString n1)).length = 1 ∧
        (paymentsWithRef st2.1 ("ref_" ++ toString n2)).length = 1 ∧
        st2.1.payments.length = db.payments.length + 2) ∧
      (∃ t1 t2,
        reconcileV1 { ctx with now := n1 }
          (mkWebhookEvent "charge.success" (some e) none none (some a)) (db, 0) = t1 ∧
        reconcileV1 { ctx with now := n2 }
          (mkWebhookEvent "charge.success" (some e) none none (some a)) (t1.1, 0) = t2 ∧
        (paymentsWithRef t2.1 ("ref_" ++ toString n1)).length = 1 ∧
        (paymentsWithRef t2.1 ("ref_" ++ toString n2)).length = 1 ∧
        t2.1.payments.length = db.payments.length + 2) := by
  intro ctx e a n1 n2 db hup he h0 h1 h2 hne
  have hempty : (db.payments.any fun q => q.reference == "") = false :=
    any_false_of_filter_nil _ _ h0
  have hfresh1 : (db.payments.any fun q => q.reference == "ref_" ++ toString n1) = false :=
    any_false_of_filter_nil _ _ h1
  have hfresh2 : (db.payments.any fun q => q.reference == "ref_" ++ toString n2) = false :=
    any_false_of_filter_nil _ _ h2
  constructor
  · obtain ⟨st1, h1eq, row1, hrow1a, hstat1, hpays1⟩ :=
      reconcileV2_cs_noref { ctx with now := n1 } e a db hup he hempty hfresh1
    have hrow1 : row1.reference = "ref_" ++ toString n1 := hrow1a
    have hempty' : (st1.1.payments.any fun q => q.reference == "") = false := by
      rw [hpays1]
      exact any_ref_append_false _ _ _ hempty (by rw [hrow1]; exact ref_ne_empty _)
    have hfresh2' : (st1.1.payments.any fun q => q.reference == "ref_" ++ toString n2)
        = false := by
      rw [hpays1]
      exact any_ref_append_false _ _ _ hfresh2 (by rw [hrow1]; exact hne)
    obtain ⟨st2, h2eq, row2, hrow2a, hstat2, hpays2⟩ :=
      reconcileV2_cs_noref { ctx with now := n2 } e a st1.1 hup he hempty' hfresh2'
    have hrow2 : row2.reference = "ref_" ++ toString n2 := hrow2a
    refine ⟨st1, st2, h1eq, h2eq, ?_, ?_, ?_⟩
    · rw [paymentsWithRef_append_other st1.1 _ row2 st2.1 (by rw [hrow2]; exact (Ne.symm hne))
        hpays2]
      rw [paymentsWithRef_append_row db _ row1 st1.1 hrow1 hfresh1 hpays1]
      rfl
    · rw [paymentsWithRef_append_row st1.1 _ row2 st2.1 hrow2 hfresh2' hpays2]
      rfl
    · rw [hpays2, hpays1]
      simp
  · obtain ⟨st1, h1eq, row1, hrow1a, hstat1, hpays1⟩ :=
      reconcileV1_cs_noref { ctx with now := n1 } e a db hup he hempty hfresh1
    have hrow1 : row1.reference = "ref_" ++ toString n1 := hrow1a
    have hempty' : (st1.1.payments.any fun q => q.reference == "") = false := by
      rw [hpays1]
      exact any_ref_append_false _ _ _ hempty (by rw [hrow1]; exact ref_ne_empty _)
    have hfresh2' : (st1.1.payments.any fun q => q.reference == "ref_" ++ toString n2)
        = false := by
      rw [hpays1]
      exact any_ref_append_false _ _ _ hfresh2 (by rw [hrow1]; exact hne)
    obtain ⟨st2, h2eq, row2, hrow2a, hstat2, hpays2⟩ :=
      reconcileV1_cs_noref { ctx with now := n2 } e a st1.1 hup he hempty' hfresh2'
    have hrow2 : row2.reference = "ref_" ++ toString n2 := hrow2a
    refine ⟨st1, st2, h1eq, h2eq, ?_, ?_, ?_⟩
    · rw [paymentsWithRef_append_other st1.1 _ row2 st2.1 (by rw [hrow2]; exact (Ne.symm hne))
        hpays2]
      rw [paymentsWithRef_append_row db _ row1 st1.1 hrow1 hfresh1 hpays1]
      rfl
    · rw [paymentsWithRef_append_row st1.1 _ row2 st2.1 hrow2 hfresh2' hpays2]
      rfl
    · rw [hpays2, hpays1]
      simp

/-- Witness for claim C10 at timestamps 1 and 2 over the empty database. -/
theorem c10_witness :
    (∀ i, demoCtx.dbUp i = true) ∧ ("a@x.com" ≠ "") ∧
    (paymentsWithRef emptyDB "" = []) ∧
    (paymentsWithRef emptyDB ("ref_" ++ toString 1) = []) ∧
    (paymentsWithRef emptyDB ("ref_" ++ toString 2) = []) ∧
    (("ref_" ++ toString 1 : String) ≠ ("ref_" ++ toString 2)) ∧
    ((∃ st1 st2,
        reconcileV2 { demoCtx with now := 1 }
          (mkWebhookEvent "charge.success" (some "a@x.com") none none (some 4900)) (emptyDB, 0)
          = Except.ok st1 ∧
        reconcileV2 { demoCtx with now := 2 }
          (mkWebhookEvent "charge.success" (some "a@x.com") none none (some 4900)) (st1.1, 0)
          = Except.ok st2 ∧
        (paymentsWithRef st2.1 ("ref_" ++ toString 1)).length = 1 ∧
        (paymentsWithRef st2.1 ("ref_" ++ toString 2)).length = 1 ∧
        st2.1.payments.length = emptyDB.payments.length + 2) ∧
      (∃ t1 t2,
        reconcileV1 { demoCtx with now := 1 }
          (mkWebhookEvent "charge.success" (some "a@x.com") none none (some 4900)) (emptyDB, 0)
          = t1 ∧
        reconcileV1 { demoCtx with now := 2 }
          (mkWebhookEvent "charge.success" (some "a@x.com") none none (some 4900)) (t1.1, 0)
          = t2 ∧
        (paymentsWithRef t2.1 ("ref_" ++ toString 1)).length = 1 ∧
        (paymentsWithRef t2.1 ("ref_" ++ toString 2)).length = 1 ∧
        t2.1.payments.length = emptyDB.payments.length + 2)) :=
  ⟨fun i => rfl, by decide, rfl, rfl, rfl, by decide,
    c10_missing_reference_duplicates demoCtx "a@x.com" 4900 1 2 emptyDB
      (fun i => rfl) (by decide) rfl rfl rfl (by decide)⟩
